import Mathlib

/-!
Verification of the buffered stream I/O subsystem of the Phoenix libc
(src/libc/src/stdio.c and its helpers in stdlib.c, locale.c, stdiotyp.h).

The C code is shallowly embedded: C strings are lists of byte values
(`List Nat`, each element in 0..255, the terminating NUL is *not* stored;
reading one past the end of a list yields 0, the terminator), machine
integers are `Nat`/`Int` with explicit reductions modulo 2^w where the C
type wraps, the thread-local `errno` is threaded explicitly through every
function that can set it, and the `FILE` structure is the record `Stream`
below.  All definitions are executable.
-/

namespace Phoenix

/-! ### Constants from the headers -/

-- include/stdio.h
def EOF : Int := -1
def SEEK_SET : Int := 0
def SEEK_CUR : Int := 1
def SEEK_END : Int := 2
def IONBF : Nat := 0  -- _IONBF
def IOLBF : Nat := 1  -- _IOLBF
def IOFBF : Nat := 2  -- _IOFBF

-- include/errno.h
def EBADF : Int := 8
def EINVAL : Int := 28
def EMFILE : Int := 33
def ENOMEM : Int := 49
def EOVERFLOW : Int := 65
def ERANGE : Int := 72
def EINTERNAL : Int := -1

-- include/limits.h and stdint.h, for the LP64 target the library is built for
def INT_MAX : Int := 2 ^ 31 - 1
def LONG_MAX : Int := 2 ^ 63 - 1
def LONG_MIN : Int := -(2 ^ 63)
def LLONG_MAX : Int := 2 ^ 63 - 1
def LLONG_MIN : Int := -(2 ^ 63)
def USIZE : Nat := 2 ^ 64      -- modulus of size_t / unsigned long long
def SIZE_MAX : Nat := USIZE - 1
def ULLONG_MAX : Nat := USIZE - 1

/-- `NL_ARGMAX`.  include/limits.h leaves the macro as a TODO comment
(`{>= 9}`); the POSIX minimum 9 is used for the model. -/
def NL_ARGMAX : Int := 9

-- src/stdiotyp.h: CharWidth (CW_UNSET / CW_NARROW / CW_WIDE)
inductive CharWidth where
  | unset
  | narrow
  | wide
deriving Repr, DecidableEq

-- src/stdiotyp.h: IOMode bits
def IO_READ : Nat := 1
def IO_WRITE : Nat := 2

/-! ### Character classification (src/locale.c, POSIX locale) -/

/-- `isspace` for the built-in POSIX locale
(locale.c, `DEFINE_CTYPE_IS(space, ...)`). -/
def isspace (c : Nat) : Bool :=
  c = 9 ∨ c = 10 ∨ c = 11 ∨ c = 12 ∨ c = 13 ∨ c = 32

/-- `isdigit` for the built-in POSIX locale. -/
def isdigit (c : Nat) : Bool := 48 ≤ c ∧ c ≤ 57

/-! ### C-string primitives -/

/-- Read the byte at the cursor: `**format`.  The terminating NUL of a C
string is modelled by reading 0 at the end of the list. -/
def peek : List Nat → Nat
  | [] => 0
  | c :: _ => c

/-- `*cursor++`: read a byte and advance.  At the terminator the cursor
stays put (the embedded code never relies on bytes past the NUL). -/
def snext : List Nat → Nat × List Nat
  | [] => (0, [])
  | c :: rest => (c, rest)

/-- Convert an `unsigned long long` value to C `int` (wrap to 32 bits,
two's complement), for the cast `(int)value` in `parse_ull`. -/
def intCast (v : Nat) : Int :=
  ((v : Int) + 2 ^ 31) % 2 ^ 32 - 2 ^ 31

/-- `UCHAR_TO_CHAR` (stdio.c line 110): reinterpret a byte as a signed
`char`. -/
def UCHAR_TO_CHAR (c : Nat) : Int :=
  if (c : Int) > 127 then (c : Int) - 256 else (c : Int)

/-! ### `strtol` family (src/stdlib.c)

`parse_ull` is translated exactly, including its two quirks:
in the accumulation loop an upper- or lower-case letter overwrites
`value` (instead of `digit`) before the loop breaks, and on a failed
first character `endptr` is reset to the very beginning of the string
(`*endptr = (char*)str`). -/

/-- The `for (;; ++i)` accumulation loop of `parse_ull`.  Returns the
final `value` and the cursor at the first byte that stopped the loop
(`endptr = str + i`). -/
def parseULLLoop (base : Nat) : List Nat → Nat → Nat × List Nat
  | [], value => (value, [])
  | c :: rest, value =>
    -- int digit = INT_MAX; three range tests as in the source
    let digit : Nat := if 48 ≤ c ∧ c ≤ 57 then c - 48 else 2 ^ 31 - 1
    let value :=
      if 48 ≤ c ∧ c ≤ 57 then value
      else if 65 ≤ c ∧ c ≤ 90 then c - 65 + 10
      else if 97 ≤ c ∧ c ≤ 122 then c - 97 + 10
      else value
    if base ≤ digit then (value, c :: rest)
    else
      let new_value := (value * base + digit) % USIZE
      let value := if value ≤ new_value then new_value else ULLONG_MAX
      parseULLLoop base rest value

/-- `parse_ull(str, i, endptr, base)` (stdlib.c).  `orig` is `str`
itself (used for `*endptr = (char*)str` on failure) and `s` is the
cursor `str + i`.  Returns (value, endptr cursor, errno). -/
def parse_ull (orig s : List Nat) (base : Nat) (errno : Int) :
    Nat × List Nat × Int :=
  if base = 1 ∨ base > 36 then (0, s, EINVAL)
  else
    -- radix sniffing for base 0 / optional 0x prefix for base 16
    let bs : Nat × List Nat :=
      if base = 0 then
        if peek s = 48 then
          if peek s.tail = 120 ∨ peek s.tail = 88 then (16, s.tail.tail)
          else (8, s)
        else (10, s)
      else if base = 16 ∧ peek s = 48 ∧ (peek s.tail = 120 ∨ peek s.tail = 88) then
        (16, s.tail.tail)
      else (base, s)
    let base := bs.1
    let s := bs.2
    let c := peek s
    let value : Nat :=
      if 48 ≤ c ∧ c ≤ 57 then c - 48
      else if 65 ≤ c ∧ c ≤ 90 then c - 65 + 10
      else if 97 ≤ c ∧ c ≤ 122 then c - 97 + 10
      else ULLONG_MAX
    let s1 := s.tail  -- ++i
    if intCast value ≥ (base : Int) then
      -- first character invalid: *endptr = (char*)str, errno = EINVAL
      (0, orig, EINVAL)
    else
      let (value, cur) := parseULLLoop base s1 value
      (value, cur, errno)

/-- `while (isspace(str[i])) ++i`. -/
def dropSpaces : List Nat → List Nat
  | [] => []
  | c :: rest => if isspace c then dropSpaces rest else c :: rest

/-- `strtoll` (stdlib.c).  Returns (value, endptr cursor, errno). -/
def strtoll (str : List Nat) (base : Nat) (errno : Int) :
    Int × List Nat × Int :=
  let s := dropSpaces str
  let signs : Int × List Nat :=
    if peek s = 43 then (1, s.tail)
    else if peek s = 45 then (-1, s.tail)
    else (1, s)
  let sign := signs.1
  let s := signs.2
  let (magnitude, cur, errno) := parse_ull str s base errno
  if sign = 1 ∧ (magnitude : Int) > LLONG_MAX then (LLONG_MAX, cur, ERANGE)
  else if sign = -1 ∧ (magnitude : Int) > LLONG_MAX + 1 then (LLONG_MIN, cur, ERANGE)
  else (sign * (magnitude : Int), cur, errno)

/-- `strtol` (stdlib.c): `strtoll` clamped to `long` range (identity on
the LP64 target, but the checks are translated). -/
def strtol (str : List Nat) (base : Nat) (errno : Int) :
    Int × List Nat × Int :=
  let (result, cur, errno) := strtoll str base errno
  if result > LONG_MAX then (LONG_MAX, cur, ERANGE)
  else if result < LONG_MIN then (LONG_MIN, cur, ERANGE)
  else (result, cur, errno)

/-- `strtoull` (stdlib.c).  Returns (value, endptr cursor, errno). -/
def strtoull (str : List Nat) (base : Nat) (errno : Int) :
    Nat × List Nat × Int :=
  let s := dropSpaces str
  if peek s = 43 then
    let (v, cur, errno) := parse_ull str s.tail base errno
    (v, cur, errno)
  else if peek s = 45 then
    -- errno = ERANGE, overwritten with EINVAL if the parsing fails
    let (v, cur, errno) := parse_ull str s.tail base ERANGE
    if errno = ERANGE then (ULLONG_MAX, cur, errno) else (v, cur, errno)
  else parse_ull str s base errno

/-- `strtoul` (stdlib.c): `strtoull` clamped to `unsigned long` range
(identity on the LP64 target). -/
def strtoul (str : List Nat) (base : Nat) (errno : Int) :
    Nat × List Nat × Int :=
  let (result, cur, errno) := strtoull str base errno
  if result > ULLONG_MAX then (ULLONG_MAX, cur, ERANGE) else (result, cur, errno)

/-! ### Format specifications (stdio.c lines 33-94) -/

-- FormatSpecFlags bit masks
def FSF_SIGN : Nat := 0x00001
def FSF_RADIX : Nat := 0x0000e
def FSF_TEXT_TYPE : Nat := 0x000f0
def FSF_ARG_TYPE : Nat := 0x00f00

def FSF_SIGNED : Nat := 0x000000
def FSF_UNSIGNED : Nat := 0x000001

def FSF_ANY_RADIX : Nat := 0x000000
def FSF_DECIMAL : Nat := 0x000002
def FSF_OCTAL : Nat := 0x000004
def FSF_HEX_LOWER : Nat := 0x000006
def FSF_HEX_UPPER : Nat := 0x000008

def FSF_TEXT_INTEGER : Nat := 0x000000
def FSF_TEXT_FLOAT_LOWER : Nat := 0x000010
def FSF_TEXT_FLOAT_UPPER : Nat := 0x000020
def FSF_TEXT_FLOAT_SCI_LOWER : Nat := 0x000030
def FSF_TEXT_FLOAT_SCI_UPPER : Nat := 0x000040
def FSF_TEXT_FLOAT_FLEX_LOWER : Nat := 0x000050
def FSF_TEXT_FLOAT_FLEX_UPPER : Nat := 0x000060
def FSF_TEXT_CHAR : Nat := 0x000070
def FSF_TEXT_STRING : Nat := 0x000080
def FSF_TEXT_POINTER : Nat := 0x000090
def FSF_TEXT_SCANSET : Nat := 0x0000a0
def FSF_TEXT_COUNT : Nat := 0x0000b0
def FSF_TEXT_PERCENT : Nat := 0x0000c0

def FSF_ARG_DEFAULT : Nat := 0x000000
def FSF_ARG_CHAR : Nat := 0x000100
def FSF_ARG_SHORT : Nat := 0x000200
def FSF_ARG_LONG : Nat := 0x000300
def FSF_ARG_LONG_LONG : Nat := 0x000400
def FSF_ARG_INTMAX_T : Nat := 0x000500
def FSF_ARG_SIZE_T : Nat := 0x000600
def FSF_ARG_PTRDIFF_T : Nat := 0x000700
def FSF_ARG_LONG_DOUBLE : Nat := 0x000800

def FSF_THOUSANDS : Nat := 0x001000
def FSF_JUSTIFY_LEFT : Nat := 0x002000
def FSF_FORCE_SIGN : Nat := 0x004000
def FSF_SPACE_AS_SIGN : Nat := 0x008000
def FSF_DECORATE : Nat := 0x010000
def FSF_PAD_WITH_ZERO : Nat := 0x020000
def FSF_SCANSET_NEGATED : Nat := 0x040000
def FSF_HAS_PRECISION : Nat := 0x080000
def FSF_HAS_WIDTH : Nat := 0x100000
def FSF_PRECISION_FROM_ARG : Nat := 0x200000
def FSF_WIDTH_FROM_ARG : Nat := 0x400000

/-- `struct FormatSpec` (stdio.c line 84).  `scanner` borrows the slice
of the format string starting at the scanset body. -/
structure FormatSpec where
  argpos : Int
  flags : Nat
  precision : Nat
  precision_argpos : Int
  width : Nat
  scanner : List Nat
deriving Repr, DecidableEq

/-- The `FormatSpec spec = {0}` zero initializer used by the callers. -/
def zeroSpec : FormatSpec :=
  { argpos := 0, flags := 0, precision := 0, precision_argpos := 0,
    width := 0, scanner := [] }

/-! ### `parse_scanset` (stdio.c lines 1758-1774) -/

/-- The `while (**format) { if (*(*format)++ == ']') return 0; }` skip
loop: consume bytes until a `]` has been consumed.  `none` when the
string (or an embedded NUL) ends first. -/
def scanset_close : List Nat → Option (List Nat)
  | [] => none
  | c :: rest =>
    if c = 0 then none
    else if c = 93 then some rest
    else scanset_close rest

/-- `parse_scanset`.  The cursor starts just past the `[`.  Returns
(return code, spec, cursor). -/
def parse_scanset (format : List Nat) (spec : FormatSpec) :
    Int × FormatSpec × List Nat :=
  let fs : FormatSpec × List Nat :=
    if peek format = 94 then  -- the caret
      ({ spec with flags := spec.flags ||| FSF_SCANSET_NEGATED }, format.tail)
    else (spec, format)
  let spec := fs.1
  let format := fs.2
  let spec := { spec with scanner := format }
  -- a ] is included in the set if it is the first character
  let format := if peek format = 93 then format.tail else format
  match scanset_close format with
  | some rest => (0, spec, rest)
  | none => (-1, spec, [])

/-! ### `parse_format_spec` (stdio.c lines 1535-1744)

The translation preserves the source's cursor behaviour exactly.  In
particular the source's failure clean-up is

    fail:
        format = orig_format;
        return -1;

where `orig_format` was initialized as `const char* restrict* orig_format
= format` — it saves the pointer *to* the cursor, not the cursor, and the
assignment overwrites the local parameter only.  The cursor `*format`
therefore keeps whatever position the parse had reached when it failed.
The model returns that advanced cursor on failure. -/

/-- One iteration step of the flags loop (stdio.c lines 1549-1573):
the flag bit for a byte, or `none` for the `default: goto flags_break`. -/
def flagBit (c : Nat) : Option Nat :=
  if c = 39 then some FSF_THOUSANDS
  else if c = 45 then some FSF_JUSTIFY_LEFT
  else if c = 43 then some FSF_FORCE_SIGN
  else if c = 32 then some FSF_SPACE_AS_SIGN
  else if c = 35 then some FSF_DECORATE
  else if c = 48 then some FSF_PAD_WITH_ZERO
  else none

/-- The flags loop `for (; **format; ++*format)`. -/
def parse_flags : List Nat → Nat → Nat × List Nat
  | [], flags => (flags, [])
  | c :: rest, flags =>
    match flagBit c with
    | some b => parse_flags rest (flags ||| b)
    | none => (flags, c :: rest)

/-- The length-modifier switch (stdio.c lines 1607-1644).  Returns the
`FSF_ARG_*` bits to OR in and the new cursor.  Note that the `h` and `l`
cases advance the cursor twice even when only one modifier letter is
present (`++*format` both inside and after the `if`), exactly as the
source does. -/
def parse_length (format : List Nat) : Nat × List Nat :=
  if peek format = 104 then  -- h
    let f1 := format.tail
    if peek f1 = 104 then (FSF_ARG_CHAR, f1.tail.tail)
    else (FSF_ARG_SHORT, f1.tail)
  else if peek format = 108 then  -- l
    let f1 := format.tail
    if peek f1 = 108 then (FSF_ARG_LONG_LONG, f1.tail.tail)
    else (FSF_ARG_LONG, f1.tail)
  else if peek format = 106 then (FSF_ARG_INTMAX_T, format.tail)   -- j
  else if peek format = 122 then (FSF_ARG_SIZE_T, format.tail)     -- z
  else if peek format = 116 then (FSF_ARG_PTRDIFF_T, format.tail)  -- t
  else if peek format = 76 then (FSF_ARG_LONG_DOUBLE, format.tail) -- L
  else (0, format)

/-- The conversion-specifier switch (stdio.c lines 1646-1738), the final
phase of `parse_format_spec`: consume one byte `c` and fill in the
conversion kind and the default precision.  Returns (return code, spec,
cursor after the directive). -/
def parse_conversion (format : List Nat) (spec : FormatSpec) :
    Int × FormatSpec × List Nat :=
  let (c, rest) := snext format
  let hasPrec := spec.flags &&& FSF_HAS_PRECISION ≠ 0
  if c = 100 then  -- d
    (0, { spec with
          flags := spec.flags ||| (FSF_SIGNED ||| FSF_DECIMAL ||| FSF_TEXT_INTEGER),
          precision := if hasPrec then spec.precision else 1 }, rest)
  else if c = 105 then  -- i
    (0, { spec with
          flags := spec.flags ||| (FSF_SIGNED ||| FSF_ANY_RADIX ||| FSF_TEXT_INTEGER),
          precision := if hasPrec then spec.precision else 1 }, rest)
  else if c = 111 then  -- o
    (0, { spec with
          flags := spec.flags ||| (FSF_UNSIGNED ||| FSF_OCTAL ||| FSF_TEXT_INTEGER),
          precision := if hasPrec then spec.precision else 1 }, rest)
  else if c = 117 then  -- u
    (0, { spec with
          flags := spec.flags ||| (FSF_UNSIGNED ||| FSF_DECIMAL ||| FSF_TEXT_INTEGER),
          precision := if hasPrec then spec.precision else 1 }, rest)
  else if c = 120 then  -- x
    (0, { spec with
          flags := spec.flags ||| (FSF_UNSIGNED ||| FSF_HEX_LOWER ||| FSF_TEXT_INTEGER),
          precision := if hasPrec then spec.precision else 1 }, rest)
  else if c = 88 then  -- X
    (0, { spec with
          flags := spec.flags ||| (FSF_UNSIGNED ||| FSF_HEX_UPPER ||| FSF_TEXT_INTEGER),
          precision := if hasPrec then spec.precision else 1 }, rest)
  else if c = 102 then  -- f
    (0, { spec with
          flags := spec.flags ||| (FSF_SIGNED ||| FSF_DECIMAL ||| FSF_TEXT_FLOAT_LOWER),
          precision := if hasPrec then spec.precision else 6 }, rest)
  else if c = 70 then  -- F
    (0, { spec with
          flags := spec.flags ||| (FSF_SIGNED ||| FSF_DECIMAL ||| FSF_TEXT_FLOAT_UPPER),
          precision := if hasPrec then spec.precision else 6 }, rest)
  else if c = 101 then  -- e
    (0, { spec with
          flags := spec.flags ||| (FSF_SIGNED ||| FSF_DECIMAL ||| FSF_TEXT_FLOAT_SCI_LOWER),
          precision := if hasPrec then spec.precision else 6 }, rest)
  else if c = 69 then  -- E
    (0, { spec with
          flags := spec.flags ||| (FSF_SIGNED ||| FSF_DECIMAL ||| FSF_TEXT_FLOAT_SCI_UPPER),
          precision := if hasPrec then spec.precision else 6 }, rest)
  else if c = 103 then  -- g
    (0, { spec with
          flags := spec.flags ||| (FSF_SIGNED ||| FSF_DECIMAL ||| FSF_TEXT_FLOAT_FLEX_LOWER),
          precision := if hasPrec then spec.precision else 6 }, rest)
  else if c = 71 then  -- G
    (0, { spec with
          flags := spec.flags ||| (FSF_SIGNED ||| FSF_DECIMAL ||| FSF_TEXT_FLOAT_FLEX_UPPER),
          precision := if hasPrec then spec.precision else 6 }, rest)
  else if c = 97 then  -- a
    (0, { spec with
          flags := spec.flags ||| (FSF_SIGNED ||| FSF_HEX_LOWER ||| FSF_TEXT_FLOAT_SCI_LOWER),
          precision := if hasPrec then spec.precision else 6 }, rest)
  else if c = 65 then  -- A
    (0, { spec with
          flags := spec.flags ||| (FSF_SIGNED ||| FSF_HEX_UPPER ||| FSF_TEXT_FLOAT_SCI_UPPER),
          precision := if hasPrec then spec.precision else 6 }, rest)
  else if c = 99 then  -- c
    (0, { spec with
          flags := spec.flags ||| (FSF_UNSIGNED ||| FSF_TEXT_CHAR),
          precision := if hasPrec then spec.precision else 1 }, rest)
  else if c = 67 then  -- C
    let s1 := { spec with
          flags := spec.flags ||| (FSF_UNSIGNED ||| FSF_TEXT_CHAR),
                precision := if hasPrec then spec.precision else 1 }
    (0, if s1.flags &&& FSF_ARG_TYPE = 0
        then { s1 with flags := s1.flags ||| FSF_ARG_LONG } else s1, rest)
  else if c = 115 then  -- s
    (0, { spec with
          flags := spec.flags ||| (FSF_UNSIGNED ||| FSF_TEXT_STRING),
          precision := if hasPrec then spec.precision else SIZE_MAX }, rest)
  else if c = 83 then  -- S
    let s1 := { spec with
          flags := spec.flags ||| (FSF_UNSIGNED ||| FSF_TEXT_STRING),
                precision := if hasPrec then spec.precision else SIZE_MAX }
    (0, if s1.flags &&& FSF_ARG_TYPE = 0
        then { s1 with flags := s1.flags ||| FSF_ARG_LONG } else s1, rest)
  else if c = 91 then  -- [
    let s1 := { spec with
          flags := spec.flags ||| (FSF_UNSIGNED ||| FSF_TEXT_SCANSET),
                precision := if hasPrec then spec.precision else 1 }
    parse_scanset rest s1
  else if c = 112 then  -- p
    (0, { spec with
          flags := spec.flags ||| (FSF_UNSIGNED ||| FSF_HEX_LOWER ||| FSF_TEXT_POINTER),
          precision := if hasPrec then spec.precision else 1 }, rest)
  else if c = 110 then  -- n
    (0, { spec with
          flags := spec.flags ||| (FSF_UNSIGNED ||| FSF_TEXT_COUNT),
          precision := if hasPrec then spec.precision else 0 }, rest)
  else if c = 37 then  -- %
    (0, { spec with
          flags := spec.flags ||| (FSF_UNSIGNED ||| FSF_TEXT_PERCENT),
          precision := if hasPrec then spec.precision else 1 }, rest)
  else
    -- no recognized conversion character: goto fail (cursor stays advanced)
    (-1, spec, rest)

/-- The precision phase (stdio.c lines 1586-1604).  The result's first
component is `true` when a `goto fail` was taken (a precision `N$`
position that is out of range or not terminated by `$`).  Note the
source quirk: after `if (*(++*format) == '*')` the cursor still points
at the asterisk, so the nested `isdigit(**format)` test examines the
asterisk itself and is always false; the `*` is never consumed. -/
def parse_precision (format : List Nat) (spec : FormatSpec) (errno : Int) :
    Bool × FormatSpec × List Nat × Int :=
  if peek format = 46 then  -- the period
    let spec := { spec with flags := spec.flags ||| FSF_HAS_PRECISION }
    let f1 := format.tail
    if peek f1 = 42 then  -- the asterisk
      let spec := { spec with flags := spec.flags ||| FSF_PRECISION_FROM_ARG }
      if isdigit (peek f1) then
        let (v, cur, errno) := strtol f1 10 errno
        let spec := { spec with precision_argpos := v }
        if spec.precision_argpos > NL_ARGMAX then (true, spec, cur, errno)
        else
          let (c, cur2) := snext cur
          if c ≠ 36 then (true, spec, cur2, errno)
          else (false, spec, cur2, errno)
      else (false, { spec with precision_argpos := 0 }, f1, errno)
    else
      let (precision, cur, errno) := strtol f1 10 errno
      if precision < 0 then
        (false, { spec with flags := spec.flags.ldiff FSF_HAS_PRECISION }, cur, errno)
      else
        (false, { spec with precision :=
          if precision.toNat > SIZE_MAX then SIZE_MAX else precision.toNat }, cur, errno)
  else (false, spec, format, errno)

/-- The phases of `parse_format_spec` after the argument position:
flags, width, precision, length modifier, conversion specifier. -/
def parseFSRest (format : List Nat) (spec : FormatSpec) (errno : Int) :
    Int × FormatSpec × List Nat × Int :=
  let (fl, format) := parse_flags format spec.flags
  let spec := { spec with flags := fl }
  -- width (stdio.c lines 1576-1584)
  let wst : FormatSpec × List Nat × Int :=
    if peek format = 42 then
      ({ spec with flags := spec.flags ||| FSF_HAS_WIDTH ||| FSF_WIDTH_FROM_ARG },
       format.tail, errno)
    else if isdigit (peek format) then
      let spec := { spec with flags := spec.flags ||| FSF_HAS_WIDTH }
      let (width, cur, errno) := strtoul format 10 errno
      ({ spec with width := if width > SIZE_MAX then SIZE_MAX else width }, cur, errno)
    else (spec, format, errno)
  let spec := wst.1
  let format := wst.2.1
  let errno := wst.2.2
  let (pfail, spec, format, errno) := parse_precision format spec errno
  if pfail then (-1, spec, format, errno)
  else
    let (lenBits, format) := parse_length format
    let spec := { spec with flags := spec.flags ||| lenBits }
    let (r, spec, format) := parse_conversion format spec
    (r, spec, format, errno)

/-- `parse_format_spec` (stdio.c lines 1535-1744).  The cursor starts
just past the `%` (and past a scan-discard `*` when the caller consumed
one).  Returns (return code, spec, cursor, errno).  On failure the
cursor stays wherever the parse had advanced it (see the section
comment above). -/
def parse_format_spec (format : List Nat) (spec0 : FormatSpec) (errno0 : Int) :
    Int × FormatSpec × List Nat × Int :=
  let spec := { spec0 with argpos := 0, flags := 0 }
  -- argument position `N$` (stdio.c lines 1542-1546)
  if isdigit (peek format) ∧ peek format ≠ 48 then
    let (v, cur, errno) := strtol format 10 errno0
    let spec := { spec with argpos := v }
    if spec.argpos > NL_ARGMAX then (-1, spec, cur, errno)
    else
      let (c, cur2) := snext cur
      if c ≠ 36 then (-1, spec, cur2, errno)
      else parseFSRest cur2 spec errno
  else parseFSRest format spec errno0

/-! ### The stream object model (src/stdiotyp.h, stdio.c)

A `FILE` is modelled by `Stream`.  The lock fields are omitted (every
embedded operation is one already-locked call; the claims under study
are sequential).  The underlying kernel file is modelled by the `data`
field: the bytes the external `read` collaborator will deliver next, in
order.  The target has `sizeof(wint_t) == 4`, so the pushback buffer
`pushback_buffer.c` is a list of 4 bytes. -/

structure Stream where
  is_open : Bool
  char_width : CharWidth
  buffer_mode : Nat
  io_mode : Nat
  eof : Bool
  error : Bool
  position_offset : Int     -- position.offset (off_t)
  length : Int              -- off_t, total length for SEEK_END
  buffer : List Nat         -- the write buffer (buffer_size bytes)
  buffer_size : Nat
  buffer_index : Nat
  pushback : List Nat       -- pushback_buffer.c, 4 bytes
  pushback_index : Nat
  data : List Nat           -- bytes the kernel read() will deliver
deriving Repr, DecidableEq

/-- The external kernel `read(fildes, buf, n)` collaborator, modelled
from the spec (section 6): it delivers up to `n` of the remaining bytes
and returns how many; 0 with no bytes left is clean end-of-file.  It
never fails in this model. -/
def kread (st : Stream) (n : Nat) : List Nat × Stream :=
  (st.data.take n, { st with data := st.data.drop n })

/-- `memcpy(dst, src, src.length)` at offset 0 of `dst` (the
destination keeps its tail). -/
def overwrite (dst src : List Nat) : List Nat :=
  src ++ dst.drop src.length

/-- `memcpy(dst + pos, src, src.length)`. -/
def listCopy (dst : List Nat) (pos : Nat) (src : List Nat) : List Nat :=
  dst.take pos ++ src ++ dst.drop (pos + src.length)

/-- `_PHOENIX_fflush_unlocked` (stdio.c lines 138-142): the flush is a
TODO stub that unconditionally sets the error flag and returns `EOF`. -/
def _PHOENIX_fflush_unlocked (st : Stream) : Int × Stream :=
  (EOF, { st with error := true })

/-- `ungetc` (stdio.c lines 1194-1216).  Returns (result, stream,
errno). -/
def ungetc (ch : Int) (st : Stream) (errno : Int) : Int × Stream × Int :=
  if ch = EOF then (EOF, st, errno)
  else if st.char_width = CharWidth.wide then
    (EOF, { st with error := true }, EINVAL)
  else
    let st := { st with char_width := CharWidth.narrow }
    if st.pushback_index = 4 then (EOF, st, errno)  -- buffer already full
    else
      (ch, { st with
             pushback := st.pushback.set st.pushback_index (ch.toNat % 256),
             pushback_index := st.pushback_index + 1,
             eof := false }, errno)

/-- `_PHOENIX_fread_unlocked` (stdio.c lines 1229-1256).  `buf` is the
caller's destination buffer; the result is (elements read, final buffer
contents, stream, errno).  Note two source quirks kept intact: the
pushback bytes are copied from the *start* of the pushback array
(`memcpy(buffer, stream->pushback_buffer.c, pushback_bytes)`), i.e. in
the order they were pushed, and the kernel read also targets the start
of `buffer` (`read(stream->fildes, buffer, ...)`), overwriting any
pushback bytes just placed there. -/
def _PHOENIX_fread_unlocked (buf : List Nat) (size count : Nat)
    (st : Stream) (errno : Int) : Nat × List Nat × Stream × Int :=
  if st.char_width = CharWidth.wide then
    (0, buf, { st with error := true }, EINVAL)
  else
    let st := { st with char_width := CharWidth.narrow }
    if size = 0 ∨ count = 0 then (0, buf, st, errno)
    else if st.is_open = false ∨ st.io_mode &&& IO_READ = 0 then
      (0, buf, { st with error := true }, EBADF)
    else if st.eof then (0, buf, st, errno)
    else
      let total_size := size * count
      let pushback_bytes := min st.pushback_index total_size
      let buf := overwrite buf (st.pushback.take pushback_bytes)
      let st := { st with pushback_index := st.pushback_index - pushback_bytes }
      let (got, st) := kread st (total_size - pushback_bytes)
      let buf := overwrite buf got
      ((pushback_bytes + got.length) / size, buf, st, errno)

/-- `fread` (stdio.c lines 1220-1227): the `size == 0 || count == 0`
short-circuit, then the locked call to `_PHOENIX_fread_unlocked`. -/
def fread (buf : List Nat) (size count : Nat) (st : Stream) (errno : Int) :
    Nat × List Nat × Stream × Int :=
  if size = 0 ∨ count = 0 then (0, buf, st, errno)
  else _PHOENIX_fread_unlocked buf size count st errno

/-- `getc_unlocked` (stdio.c lines 972-978): a one-byte
`_PHOENIX_fread_unlocked`; `EOF` when fewer than one element arrives. -/
def getc_unlocked (st : Stream) (errno : Int) : Int × Stream × Int :=
  let (n, buf, st, errno) := _PHOENIX_fread_unlocked [0] 1 1 st errno
  if n < 1 then (EOF, st, errno) else ((peek buf : Int), st, errno)

/-- The inner write loop of `_PHOENIX_fwrite_unlocked` (stdio.c lines
1277-1306).  `fuel` bounds the iteration count; it is unreachable at 0
when starting from `fuel = bytes_remaining`, since every continuing
iteration moves at least one byte.  Returns (final bytes_remaining,
stream).  Source quirk kept intact: the copy source is
`(const unsigned char*)buffer + obj_buffer_index`, which wraps per
element, so later elements re-copy the first element's bytes. -/
def fwriteLoop (buf : List Nat) (size : Nat) :
    Nat → Nat → Nat → Stream → Nat × Stream
  | 0, bytes_remaining, _, st => (bytes_remaining, st)
  | _ + 1, 0, _, st => (0, st)
  | fuel + 1, bytes_remaining, obj_buffer_index, st =>
    if st.buffer_size = 0 ∨ st.buffer_mode = IONBF then
      -- unbuffered: TODO in the source; sets error and breaks
      (bytes_remaining, { st with error := true })
    else if st.buffer_index ≥ st.buffer_size then
      -- flush the buffer if it is full; the flush stub always fails
      let (_, st) := _PHOENIX_fflush_unlocked st
      (bytes_remaining, st)
    else
      let obj_rem := size - obj_buffer_index
      let file_rem := st.buffer_size - st.buffer_index
      let bytes_to_write := min obj_rem file_rem
      let src := ((buf.drop obj_buffer_index).take bytes_to_write)
      let st := { st with
                  buffer := listCopy st.buffer st.buffer_index src,
                  buffer_index := st.buffer_index + bytes_to_write }
      let obj_buffer_index := obj_buffer_index + bytes_to_write
      let obj_buffer_index :=
        if obj_buffer_index ≥ size then obj_buffer_index - size else obj_buffer_index
      fwriteLoop buf size fuel (bytes_remaining - bytes_to_write) obj_buffer_index st

/-- `_PHOENIX_fwrite_unlocked` (stdio.c lines 1266-1310).  Returns
(elements written, stream, errno).  Unlike `_PHOENIX_fread_unlocked`,
the narrow-width commitment `char_width = CW_NARROW` is absent from the
source. -/
def _PHOENIX_fwrite_unlocked (buf : List Nat) (size count : Nat)
    (st : Stream) (errno : Int) : Nat × Stream × Int :=
  let bytes_remaining := size * count
  if st.char_width = CharWidth.wide then
    ((size * count - bytes_remaining) / size, { st with error := true }, EINVAL)
  else if size = 0 ∨ count = 0 then (0, st, errno)
  else
    let res := fwriteLoop buf size bytes_remaining bytes_remaining 0 st
    ((size * count - res.1) / size, res.2, errno)

/-- `fwrite` (stdio.c lines 1259-1264): the locked wrapper. -/
def fwrite (buf : List Nat) (size count : Nat) (st : Stream) (errno : Int) :
    Nat × Stream × Int :=
  _PHOENIX_fwrite_unlocked buf size count st errno

/-- The buffering loop of `fputs` (stdio.c lines 1163-1175).  Recursion
on the remaining string; the flush branch always fails (flush stub), so
the outer `while` never repeats.  Returns (result, stream). -/
def fputsLoop : List Nat → Stream → Int × Stream
  | [], st => (0, st)  -- while (*str) not entered: result stays 0
  | c :: rest, st =>
    if st.buffer_index < st.buffer_size then
      let st := { st with
                  buffer := st.buffer.set st.buffer_index c,
                  buffer_index := st.buffer_index + 1 }
      match rest with
      | [] => (0, st)  -- if (!*str) goto done
      | _ => fputsLoop rest st
    else
      -- flush the buffer before continuing; the stub always fails,
      -- so result = EOF and the loop exits
      let (_, st) := _PHOENIX_fflush_unlocked st
      (EOF, st)

/-- `fputs` (stdio.c lines 1144-1181).  Returns (result, stream,
errno).  Source quirk kept intact: on the wide-width `EFAIL(EINVAL)`
path the function returns `result`, which is still 0, not `EOF`. -/
def fputs (str : List Nat) (st : Stream) (errno : Int) : Int × Stream × Int :=
  if st.char_width = CharWidth.wide then
    (0, { st with error := true }, EINVAL)
  else
    let st := { st with char_width := CharWidth.narrow }
    if st.buffer_size = 0 ∨ st.buffer_mode = IONBF then
      -- unbuffered: FIXME in the source; sets error, result = EOF
      (EOF, { st with error := true }, errno)
    else
      let res := fputsLoop str st
      (res.1, res.2, errno)

/-- The read loop of `fgets` (stdio.c lines 1008-1020).  `str` holds
the caller's buffer as signed-char values; `i` is the write index.
`fuel` is `num - 1 - i`, the number of remaining loop iterations, which
decreases by one each time a byte is stored.  Returns
(null-result?, buffer, i, stream, errno): the first component is `true`
when the function must return NULL. -/
def fgetsLoop : Nat → Nat → List Int → Stream → Int →
    Bool × List Int × Nat × Stream × Int
  | 0, i, str, st, errno => (false, str, i, st, errno)
  | fuel + 1, i, str, st, errno =>
    if st.eof then (false, str, i, st, errno)
    else
      let (c, st, errno) := getc_unlocked st errno
      if c = EOF then
        if st.error ∨ i = 0 then (true, str, i, st, errno)
        else (false, str, i, st, errno)
      else
        let str := str.set i (UCHAR_TO_CHAR c.toNat)
        let i := i + 1
        if c = 10 then (false, str, i, st, errno)  -- stop after a newline
        else fgetsLoop fuel i str st errno

/-- `fgets` (stdio.c lines 996-1029).  Returns (result, buffer, stream,
errno); `result = none` models the NULL return.  `num` is the C `int`
argument; the loop runs while `i < num - 1`. -/
def fgets (str : List Int) (num : Int) (st : Stream) (errno : Int) :
    Option Unit × List Int × Stream × Int :=
  if num = 0 then (none, str, st, EINVAL)
  else if st.eof then (none, str, st, errno)
  else
    let fuel := (num - 1).toNat
    let (isNull, str, i, st, errno) := fgetsLoop fuel 0 str st errno
    if isNull then (none, str, st, errno)
    else (some (), str.set i 0, st, errno)  -- str[i] = the NUL terminator

/-- The read loop of `getdelim` (stdio.c lines 1085-1094).  State:
(bytes_read, *size, *lineptr).  `fuel` bounds the iterations; the loop
consumes one stream byte per iteration, so
`pushback_index + data.length + 1` iterations suffice.  Returns
(last c, bytes_read, size, line, stream, errno). -/
def getdelimLoop (delimiter : Int) :
    Nat → Nat → Nat → List Int → Stream → Int →
    Int × Nat × Nat × List Int × Stream × Int
  | 0, bytes_read, size, line, st, errno => (EOF, bytes_read, size, line, st, errno)
  | fuel + 1, bytes_read, size, line, st, errno =>
    let (c, st, errno) := getc_unlocked st errno
    if c = EOF then (EOF, bytes_read, size, line, st, errno)
    else
      let bytes_read := bytes_read + 1
      let gs : Nat × List Int :=
        if bytes_read = size then
          -- *size *= 2; *lineptr = realloc(*lineptr, *size)
          (size * 2, line ++ List.replicate size 0)
        else (size, line)
      let size := gs.1
      let line := (gs.2).set (bytes_read - 1) (UCHAR_TO_CHAR c.toNat)
      if c = delimiter then (c, bytes_read, size, line, st, errno)
      else getdelimLoop delimiter fuel bytes_read size line st errno

/-- `getdelim` (stdio.c lines 1062-1109).  `lineptr` is the caller's
`char**` (`none` models a NULL outer pointer; the inner option models a
NULL `*lineptr`), `size` the caller's `size_t*`.  Returns (return
value, *lineptr, *size, stream, errno).  A freshly malloc'd buffer is
modelled as zero bytes. -/
def getdelim (lineptr : Option (Option (List Int))) (size : Option Nat)
    (delimiter : Int) (st : Stream) (errno : Int) :
    Int × Option (Option (List Int)) × Option Nat × Stream × Int :=
  if st.char_width = CharWidth.wide then
    (-1, lineptr, size, { st with error := true }, EINVAL)
  else
    let st := { st with char_width := CharWidth.narrow }
    match lineptr, size with
    | none, _ => (-1, lineptr, size, { st with error := true }, EINVAL)
    | _, none => (-1, lineptr, size, { st with error := true }, EINVAL)
    | some line0, some sz0 =>
      if st.eof then (-1, some line0, some sz0, st, errno)
      else
        -- if (!*size) { *size = 16; if (*lineptr) realloc to 16 }
        let ls1 : Nat × Option (List Int) :=
          if sz0 = 0 then
            match line0 with
            | some l => (16, some (l.take 16 ++ List.replicate (16 - l.length) 0))
            | none => (16, none)
          else (sz0, line0)
        let sz1 := ls1.1
        -- if (!*lineptr) *lineptr = malloc(*size)
        let line1 : List Int :=
          match ls1.2 with
          | some l => l
          | none => List.replicate sz1 0
        let fuel := st.pushback_index + st.data.length + 1
        let res := getdelimLoop delimiter fuel 0 sz1 line1 st errno
        let c := res.1
        let bytes_read := res.2.1
        let sz2 := res.2.2.1
        let line2 := res.2.2.2.1
        let st := res.2.2.2.2.1
        let errno := res.2.2.2.2.2
        if c = EOF ∧ (st.error ∨ (st.eof ∧ bytes_read = 0)) then
          (-1, some (some line2), some sz2, st, errno)
        else
          (bytes_read, some (some (line2.set bytes_read 0)), some sz2, st, errno)

/-- `clearerr` (stdio.c lines 1464-1469). -/
def clearerr (st : Stream) : Stream :=
  { st with eof := false, error := false }

/-- `feof` (stdio.c lines 1472-1477). -/
def feof (st : Stream) : Bool := st.eof

/-- `ferror` (stdio.c lines 1480-1485). -/
def ferror (st : Stream) : Bool := st.error

/-! ### Seeking (stdio.c lines 1373-1420, `FSEEK_GENERIC` instantiated
at `offset_t = long`) -/

/-- The portion of `FSEEK_GENERIC` after the flush call (stdio.c lines
1380-1413): the `whence` switch with its overflow checks, then the
pushback/eof reset.  `pushback_buffer.wc = WEOF` writes the four bytes
0xFF.  Returns (result, stream, errno). -/
def fseekCore (st : Stream) (offset whence : Int) (errno : Int) :
    Int × Stream × Int :=
  let finish : Stream → Int × Stream × Int := fun st =>
    (0, { st with
          pushback := [255, 255, 255, 255],
          pushback_index := 0,
          eof := false }, errno)
  if whence = SEEK_SET then
    finish { st with position_offset := offset }
  else if whence = SEEK_CUR then
    if (st.position_offset ≤ LONG_MAX ∧ offset > LONG_MAX - st.position_offset) ∨
        st.position_offset + offset > LONG_MAX then
      (-1, st, EOVERFLOW)
    else finish { st with position_offset := st.position_offset + offset }
  else if whence = SEEK_END then
    if (st.length ≤ LONG_MAX ∧ offset > LONG_MAX - st.length) ∨
        st.length + offset > LONG_MAX then
      (-1, st, EOVERFLOW)
    else finish { st with position_offset := st.length + offset }
  else (-1, st, EINVAL)  -- unrecognized seek origin

/-- `_PHOENIX_fseek_unlocked` (the `FSEEK_GENERIC` expansion, stdio.c
lines 1373-1419): flush, then the whence switch.  The flush stub always
returns `EOF`, so the first branch is always taken and the seek always
fails with the cursor state untouched (apart from the error flag set by
the flush) and `errno` unchanged. -/
def _PHOENIX_fseek_unlocked (st : Stream) (offset whence : Int) (errno : Int) :
    Int × Stream × Int :=
  let (fr, st1) := _PHOENIX_fflush_unlocked st
  if fr ≠ 0 then (-1, st1, errno)
  else fseekCore st1 offset whence errno

/-- `fseek` (stdio.c lines 1358-1363): the locked wrapper. -/
def fseek (st : Stream) (offset whence : Int) (errno : Int) :
    Int × Stream × Int :=
  _PHOENIX_fseek_unlocked st offset whence errno

/-! ### The print engine (stdio.c lines 424-552)

`PRINTF_BODY_GENERIC` instantiated for `vsprintf` (`put_char` is
`*s++ = c`, `finalize` is `*s = '\0'`).  Every conversion renderer in
the body is a TODO stub (integer, float, char, string, pointer, count):
a successfully parsed directive of those kinds emits nothing.  A parse
failure or a scanset directive falls into `put`, which emits the `%`
itself (for the scanset case after rewinding the cursor to just past
the `%`). -/

-- enum Type of find_positioned_args, encoded as Nat
def TYPE_UNKNOWN : Nat := 0
def TYPE_INT : Nat := 1
def TYPE_DOUBLE : Nat := 2
def TYPE_POINTER : Nat := 3
def TYPE_LONG : Nat := 4
def TYPE_WINT : Nat := 5
def TYPE_LONGLONG : Nat := 6
def TYPE_INTMAX : Nat := 7
def TYPE_SIZE : Nat := 8
def TYPE_PTRDIFF : Nat := 9
def TYPE_LONGDOUBLE : Nat := 10

/-- The argument-type classification switch of `find_positioned_args`
(stdio.c lines 1817-1859).  `none` models the `continue` taken for
scanset and percent directives. -/
def fpaType (spec : FormatSpec) : Option Nat :=
  let tt := spec.flags &&& FSF_TEXT_TYPE
  let at_ := spec.flags &&& FSF_ARG_TYPE
  if tt = FSF_TEXT_INTEGER then
    some (if at_ = FSF_ARG_LONG then TYPE_LONG
          else if at_ = FSF_ARG_LONG_LONG then TYPE_LONGLONG
          else if at_ = FSF_ARG_INTMAX_T then TYPE_INTMAX
          else if at_ = FSF_ARG_SIZE_T then TYPE_SIZE
          else if at_ = FSF_ARG_PTRDIFF_T then TYPE_PTRDIFF
          else TYPE_INT)
  else if tt = FSF_TEXT_FLOAT_LOWER ∨ tt = FSF_TEXT_FLOAT_UPPER ∨
      tt = FSF_TEXT_FLOAT_SCI_LOWER ∨ tt = FSF_TEXT_FLOAT_SCI_UPPER ∨
      tt = FSF_TEXT_FLOAT_FLEX_LOWER ∨ tt = FSF_TEXT_FLOAT_FLEX_UPPER then
    some (if at_ = FSF_ARG_LONG_DOUBLE then TYPE_LONGDOUBLE else TYPE_DOUBLE)
  else if tt = FSF_TEXT_CHAR then
    some (if at_ = FSF_ARG_LONG then TYPE_WINT else TYPE_INT)
  else if tt = FSF_TEXT_STRING ∨ tt = FSF_TEXT_POINTER ∨ tt = FSF_TEXT_COUNT then
    some TYPE_POINTER
  else none  -- scanset, percent: continue

/-- The format-scanning loop of `find_positioned_args` (stdio.c lines
1809-1867).  `types` is `positioned_arg_types` (NL_ARGMAX slots);
`lastp`/`nextu` are the two 1-based/0-based counters.  An unpositioned
slot index at or beyond NL_ARGMAX would be an out-of-bounds write in
the source; `List.set` drops it.  `fuel` bounds the iterations (the
format cursor advances every iteration, so `format.length + 1`
suffices). -/
def fpaLoop :
    Nat → List Nat → List Nat → Int → Int → Int →
    List Nat × Int × Int
  | 0, _, types, lastp, _, errno => (types, lastp, errno)
  | _ + 1, [], types, lastp, _, errno => (types, lastp, errno)
  | fuel + 1, c :: rest, types, lastp, nextu, errno =>
    if c ≠ 37 then fpaLoop fuel rest types lastp nextu errno
    else
      let (r, spec, rest, errno) := parse_format_spec rest zeroSpec errno
      if r ≠ 0 then fpaLoop fuel rest types lastp nextu errno
      else
        match fpaType spec with
        | none => fpaLoop fuel rest types lastp nextu errno
        | some ty =>
          if spec.argpos ≠ 0 then
            let types := types.set (spec.argpos - 1).toNat ty
            let lastp := if spec.argpos > lastp then spec.argpos else lastp
            fpaLoop fuel rest types lastp nextu errno
          else
            let types := types.set nextu.toNat ty
            fpaLoop fuel rest types lastp (nextu + 1) errno

/-- `find_positioned_args` (stdio.c lines 1785-1917).  Only the
returned count is observable in this embedding: the `va_list` replay it
performs (lines 1876-1914) would matter only to conversion renderers,
all of which are TODO stubs.  Returns (count or -1, errno). -/
def find_positioned_args (format : List Nat) (errno : Int) : Int × Int :=
  let (types, lastp, errno) :=
    fpaLoop (format.length + 1) format (List.replicate 9 TYPE_UNKNOWN) 0 0 errno
  if lastp = 0 then (0, errno)
  else if (types.take lastp.toNat).any (fun t => t = TYPE_UNKNOWN) then (-1, errno)
  else (lastp, errno)

/-- The main loop of `PRINTF_BODY_GENERIC` for `vsprintf` (stdio.c
lines 434-507).  `out` is the list of bytes emitted so far (`put_char`
appends).  Returns (bytes_written or -1, emitted bytes, errno).  The
scanset case rewinds the cursor to `old_format`, so one extra pass over
the directive body can occur; `2 * format.length + 2` fuel covers every
cursor position twice. -/
def printfLoop :
    Nat → List Nat → Int → List Nat → Int → Int × List Nat × Int
  | 0, _, _, out, errno => (-1, out, errno)
  | _ + 1, [], bytes_written, out, errno => (bytes_written, out, errno)
  | fuel + 1, c :: rest, bytes_written, out, errno =>
    -- put: emit `x`, then the INT_MAX overflow check, then continue at `k`
    let put := fun (x : Nat) (k : List Nat) =>
      let out := out ++ [x]
      if bytes_written = INT_MAX then (-1, out, EOVERFLOW)
      else printfLoop fuel k (bytes_written + 1) out errno
    if c = 37 then
      let old_format := rest
      let (r, spec, rest2, errno2) := parse_format_spec rest zeroSpec errno
      if r ≠ 0 then
        -- invalid directive: print the conversion specifier verbatim
        let out := out ++ [c]
        if bytes_written = INT_MAX then (-1, out, EOVERFLOW)
        else printfLoop fuel rest2 (bytes_written + 1) out errno2
      else
        let tt := spec.flags &&& FSF_TEXT_TYPE
        if tt = FSF_TEXT_INTEGER ∨ tt = FSF_TEXT_FLOAT_LOWER ∨
            tt = FSF_TEXT_FLOAT_UPPER ∨ tt = FSF_TEXT_FLOAT_SCI_LOWER ∨
            tt = FSF_TEXT_FLOAT_SCI_UPPER ∨ tt = FSF_TEXT_FLOAT_FLEX_LOWER ∨
            tt = FSF_TEXT_FLOAT_FLEX_UPPER ∨ tt = FSF_TEXT_CHAR ∨
            tt = FSF_TEXT_STRING ∨ tt = FSF_TEXT_POINTER ∨
            tt = FSF_TEXT_COUNT then
          -- all renderers are TODO stubs: nothing is emitted
          printfLoop fuel rest2 bytes_written out errno2
        else if tt = FSF_TEXT_SCANSET then
          -- invalid in a printf format string: rewind and print verbatim
          let out := out ++ [c]
          if bytes_written = INT_MAX then (-1, out, EOVERFLOW)
          else printfLoop fuel old_format (bytes_written + 1) out errno2
        else if tt = FSF_TEXT_PERCENT then
          let out := out ++ [c]
          if bytes_written = INT_MAX then (-1, out, EOVERFLOW)
          else printfLoop fuel rest2 (bytes_written + 1) out errno2
        else (-1, out, EINTERNAL)  -- unreachable: unrecognized spec type
    else put c rest

/-- `vsprintf` (stdio.c lines 550-552, the `PRINTF_BODY_GENERIC`
expansion).  Returns (result, emitted bytes, errno); the caller's
buffer receives the emitted bytes followed by the NUL terminator
written by `finalize`. -/
def vsprintf (format : List Nat) (errno : Int) : Int × List Nat × Int :=
  let (cnt, errno) := find_positioned_args format errno
  if cnt < 0 then (-1, [], EINVAL)
  else printfLoop (2 * format.length + 2) format 0 [] errno

/-! ### The scan engine: `vsscanf` (stdio.c lines 555-958)

The input string is walked with a current character `c` and a cursor
`s` exactly as in the source (`char c = *s++`).  `nread` counts every
pointer advance (`s - s_start`, the value a `%n` directive stores).
The variadic pointer arguments are modelled by their index: `argi` is
the next unconsumed argument, and each conversion that stores appends
`(argument index, values written through that pointer in order)` to
`writes`.  A conversion that null-terminates appends the final 0. -/

structure ScanEnv where
  c : Nat
  s : List Nat
  nread : Nat
  argi : Nat
  writes : List (Nat × List Int)
  args_filled : Int
deriving Repr, DecidableEq

/-- `c = *s++`: returns (byte, cursor, s - s_start counter). -/
def fetch (s : List Nat) (nread : Nat) : Nat × List Nat × Nat :=
  (peek s, s.tail, nread + 1)

/-- `while (isspace(c)) { c = *s++; }`. -/
def skipSpacesIn (c : Nat) (s : List Nat) (nread : Nat) : Nat × List Nat × Nat :=
  if isspace c then
    match s with
    | [] => (0, [], nread + 1)
    | a :: r => skipSpacesIn a r (nread + 1)
  else (c, s, nread)

/-- `size_t` post-decrement `width_counter--` when the tested value may
be 0 (the decrement then wraps to SIZE_MAX). -/
def sdec (w : Nat) : Nat := if w = 0 then SIZE_MAX else w - 1

/-- The digit-accumulation loop of the integer conversion (stdio.c
lines 661-672): `while (width_counter--)` with the three digit-range
tests.  An iteration whose character matches no range changes nothing,
so the loop's final `i_acc`, `c` and `s` are those at the first
non-digit (or at width exhaustion); the function stops there instead of
spinning through the remaining (possibly SIZE_MAX) iterations. -/
def scanDigits (radix dec_digits hex_digits : Nat) :
    Nat → Nat → Nat → List Nat → Nat → Nat × Nat × List Nat × Nat
  | 0, acc, c, s, nread => (acc, c, s, nread)
  | w + 1, acc, c, s, nread =>
    if 48 ≤ c ∧ c < 48 + dec_digits then
      scanDigits radix dec_digits hex_digits w
        ((acc * radix + (c - 48)) % USIZE) (peek s) s.tail (nread + 1)
    else if 97 ≤ c ∧ c < 97 + hex_digits then
      scanDigits radix dec_digits hex_digits w
        ((acc * radix + (c - 97 + 10)) % USIZE) (peek s) s.tail (nread + 1)
    else if 65 ≤ c ∧ c < 65 + hex_digits then
      scanDigits radix dec_digits hex_digits w
        ((acc * radix + (c - 65 + 10)) % USIZE) (peek s) s.tail (nread + 1)
    else (acc, c, s, nread)

/-- Two's-complement wrap of an `Int` into a signed `w`-bit type. -/
def wrapS (w : Nat) (v : Int) : Int :=
  (v + 2 ^ (w - 1)) % 2 ^ w - 2 ^ (w - 1)

/-- Wrap of an `Int` into an unsigned `w`-bit type (the value the
object holds, as a non-negative integer). -/
def wrapU (w : Nat) (v : Int) : Int := v % 2 ^ w

/-- The conversion `(intmax_t)i_acc` of a `uintmax_t` accumulator. -/
def intmaxOfU (v : Nat) : Int :=
  if v < 2 ^ 63 then (v : Int) else (v : Int) - 2 ^ 64

/-- The store switch of the integer/pointer conversion (stdio.c lines
684-738): the value the target object holds afterwards, or `none` for
`default: goto matching_break`. -/
def storeIntValue (flags : Nat) (sign : Int) (i_acc : Nat) : Option Int :=
  let at_ := flags &&& FSF_ARG_TYPE
  let signedV := fun (w : Nat) => wrapS w (sign * intmaxOfU i_acc)
  let unsignedV := fun (w : Nat) => wrapU w (sign * (i_acc : Int))
  if at_ = FSF_ARG_DEFAULT then
    if flags &&& FSF_TEXT_TYPE = FSF_TEXT_POINTER then
      some (wrapU 64 (sign * intmaxOfU i_acc))
    else if flags &&& FSF_SIGN = FSF_SIGNED then some (signedV 32)
    else some (unsignedV 32)
  else if at_ = FSF_ARG_CHAR then
    if flags &&& FSF_SIGN = FSF_SIGNED then some (signedV 8) else some (unsignedV 8)
  else if at_ = FSF_ARG_SHORT then
    if flags &&& FSF_SIGN = FSF_SIGNED then some (signedV 16) else some (unsignedV 16)
  else if at_ = FSF_ARG_LONG then
    if flags &&& FSF_SIGN = FSF_SIGNED then some (signedV 64) else some (unsignedV 64)
  else if at_ = FSF_ARG_LONG_LONG then
    if flags &&& FSF_SIGN = FSF_SIGNED then some (signedV 64) else some (unsignedV 64)
  else if at_ = FSF_ARG_INTMAX_T then
    if flags &&& FSF_SIGN = FSF_SIGNED then some (signedV 64) else some (unsignedV 64)
  else if at_ = FSF_ARG_SIZE_T then some (unsignedV 64)
  else if at_ = FSF_ARG_PTRDIFF_T then some (signedV 64)
  else none

/-- The store switch of the `%n` conversion (stdio.c lines 910-937):
the stored `s - s_start`, or `none` for `default: goto matching_break`. -/
def storeCountValue (flags : Nat) (n : Nat) : Option Int :=
  let at_ := flags &&& FSF_ARG_TYPE
  if at_ = FSF_ARG_DEFAULT then some (wrapS 32 (n : Int))
  else if at_ = FSF_ARG_CHAR then some (wrapS 8 (n : Int))
  else if at_ = FSF_ARG_SHORT then some (wrapS 16 (n : Int))
  else if at_ = FSF_ARG_LONG then some (wrapS 64 (n : Int))
  else if at_ = FSF_ARG_LONG_LONG then some (wrapS 64 (n : Int))
  else if at_ = FSF_ARG_INTMAX_T then some (wrapS 64 (n : Int))
  else if at_ = FSF_ARG_SIZE_T then some (wrapU 64 (n : Int))
  else if at_ = FSF_ARG_PTRDIFF_T then some (wrapS 64 (n : Int))
  else none

/-- Resolve the output pointer (stdio.c lines 674-682 and the identical
blocks in the other conversions): a positional spec replays a copy of
the argument list (`argi + argpos - 1`, `argi` unchanged), otherwise
`va_arg` consumes the next argument.  Returns (target index, new
`argi`). -/
def outIndex (argpos : Int) (argi : Nat) : Nat × Nat :=
  if argpos ≠ 0 then (argi + (argpos - 1).toNat, argi) else (argi, argi + 1)

/-- One element store of the `%c`/`%s`/scanset conversions (stdio.c
lines 786-800 etc.): the value appended to the target, or `none` for
`default: goto matching_break`. -/
def storeElem (flags : Nat) (c : Nat) : Option Int :=
  let at_ := flags &&& FSF_ARG_TYPE
  if at_ = FSF_ARG_DEFAULT then some (UCHAR_TO_CHAR c)  -- *(char*)out = c
  else if at_ = FSF_ARG_LONG then some ((c : Int))      -- *(wchar_t*)out = c
  else none

/-- The `%c` loop (stdio.c lines 784-803): exactly `width` iterations,
each storing the current character (no terminator, no whitespace stop).
Returns `none` on `goto matching_break` (which can only happen on the
first store attempt, before anything was written). -/
def scanCharLoop (flags : Nat) (store_arg : Bool) :
    Nat → Nat → List Nat → Nat → List Int →
    Option (Nat × List Nat × Nat × List Int)
  | 0, c, s, nread, vals => some (c, s, nread, vals)
  | w + 1, c, s, nread, vals =>
    let vals2 : Option (List Int) :=
      if store_arg then
        match storeElem flags c with
        | some v => some (vals ++ [v])
        | none => none
      else some vals
    match vals2 with
    | none => none
    | some vals =>
      let (c, s, nread) := fetch s nread
      scanCharLoop flags store_arg w c s nread vals

/-- The `%s` loop (stdio.c lines 824-843):
`while (width_counter-- && c && !isspace(c))`. -/
def scanStrLoop (flags : Nat) (store_arg : Bool) :
    Nat → Nat → List Nat → Nat → List Int →
    Option (Nat × List Nat × Nat × List Int)
  | 0, c, s, nread, vals => some (c, s, nread, vals)
  | w + 1, c, s, nread, vals =>
    if c = 0 ∨ isspace c then some (c, s, nread, vals)
    else
      let vals2 : Option (List Int) :=
        if store_arg then
          match storeElem flags c with
          | some v => some (vals ++ [v])
          | none => none
        else some vals
      match vals2 with
      | none => none
      | some vals =>
        let (c, s, nread) := fetch s nread
        scanStrLoop flags store_arg w c s nread vals

inductive ScanAct where
  | store
  | brk
deriving Repr, DecidableEq

/-- The scanset membership do-while (stdio.c lines 863-871):

    do {
        if (c == *scanner++) {
            if (negated) goto scanset_break; else goto scanset_store;
        }
    } while (*scanner != ']');

A match exits to `scanset_break` (`brk`) in a negated set and to
`scanset_store` (`store`) otherwise; when the loop runs out (the next
byte is the closing `]`) control falls through to `scanset_store`, so
the result is also `store`.  The two list-exhaustion cases assume the
parse invariant that a `]` occurs at index ≥ 1 of the scanner (the
source would read past the buffer otherwise). -/
def scansetDecision (negated : Bool) (c : Nat) : List Nat → ScanAct
  | [] => ScanAct.store
  | x :: rest =>
    if c = x then (if negated then ScanAct.brk else ScanAct.store)
    else
      match rest with
      | [] => ScanAct.store
      | y :: _ => if y = 93 then ScanAct.store else scansetDecision negated c rest

/-- The scanset loop (stdio.c lines 861-891):
`while (width_counter-- && c)` around the membership do-while and the
element store. -/
def scanSetLoop (flags : Nat) (store_arg negated : Bool) (scanner : List Nat) :
    Nat → Nat → List Nat → Nat → List Int →
    Option (Nat × List Nat × Nat × List Int)
  | 0, c, s, nread, vals => some (c, s, nread, vals)
  | w + 1, c, s, nread, vals =>
    if c = 0 then some (c, s, nread, vals)
    else
      match scansetDecision negated c scanner with
      | ScanAct.brk => some (c, s, nread, vals)
      | ScanAct.store =>
        let vals2 : Option (List Int) :=
          if store_arg then
            match storeElem flags c with
            | some v => some (vals ++ [v])
            | none => none
          else some vals
        match vals2 with
        | none => none
        | some vals =>
          let (c, s, nread) := fetch s nread
          scanSetLoop flags store_arg negated scanner w c s nread vals

/-- Outcome of one conversion inside the `vsscanf` loop. -/
inductive ScanStep where
  | next (env : ScanEnv) (errno : Int)  -- fall out of the switch, continue
  | stop (env : ScanEnv) (errno : Int)  -- goto matching_break
  | fail (errno : Int)                  -- EFAIL(...): return EOF

/-- One conversion of the `vsscanf` switch (stdio.c lines 603-951),
dispatched on `spec.flags & FSF_TEXT_TYPE`. -/
def scanConvert (spec : FormatSpec) (store_arg : Bool) (width_counter : Nat)
    (env : ScanEnv) (errno : Int) : ScanStep :=
  let tt := spec.flags &&& FSF_TEXT_TYPE
  if tt = FSF_TEXT_INTEGER ∨ tt = FSF_TEXT_POINTER then
    -- stdio.c lines 604-741
    let (c, s, nread) := skipSpacesIn env.c env.s env.nread
    -- optional sign
    let sgn : Int × Nat × List Nat × Nat × Nat :=
      if width_counter ≠ 0 then
        if c = 45 then
          let (c, s, nread) := fetch s nread
          (-1, c, s, nread, width_counter - 1)
        else if c = 43 then
          let (c, s, nread) := fetch s nread
          (1, c, s, nread, width_counter - 1)
        else (1, c, s, nread, width_counter)
      else (1, c, s, nread, width_counter)
    let sign := sgn.1
    let c := sgn.2.1
    let s := sgn.2.2.1
    let nread := sgn.2.2.2.1
    let width_counter := sgn.2.2.2.2
    -- radix selection
    let rad := spec.flags &&& FSF_RADIX
    let rx : Option (Nat × Nat × List Nat × Nat × Nat) :=
      if rad = FSF_ANY_RADIX then
        -- radix = 10; leading 0 switches to octal, then x/X to hex
        let t1 := width_counter ≠ 0
        let width_counter := sdec width_counter
        if t1 ∧ c = 48 then
          let (c, s, nread) := fetch s nread
          let t2 := width_counter ≠ 0
          let width_counter := sdec width_counter
          if t2 ∧ (c = 120 ∨ c = 88) then
            let (c, s, nread) := fetch s nread
            some (16, c, s, nread, width_counter)
          else some (8, c, s, nread, width_counter)
        else some (10, c, s, nread, width_counter)
      else if rad = FSF_DECIMAL then some (10, c, s, nread, width_counter)
      else if rad = FSF_OCTAL then some (8, c, s, nread, width_counter)
      else if rad = FSF_HEX_LOWER ∨ rad = FSF_HEX_UPPER then
        -- an optional "0x" prefix
        if width_counter ≥ 2 ∧ c = 48 ∧ (peek s = 120 ∨ peek s = 88) then
          let s := s.tail          -- s++
          let nread := nread + 1
          let (c, s, nread) := fetch s nread
          some (16, c, s, nread, width_counter - 2)
        else some (16, c, s, nread, width_counter)
      else none  -- should be unreachable: EFAIL(EINTERNAL)
    match rx with
    | none => ScanStep.fail EINTERNAL
    | some (radix, c, s, nread, width_counter) =>
      let dec_digits := if radix ≤ 10 then radix else 10
      let hex_digits := if radix ≤ 10 then 0 else radix - 10
      let (i_acc, c, s, nread) :=
        scanDigits radix dec_digits hex_digits width_counter 0 c s nread
      if store_arg then
        let (outIdx, argi) := outIndex spec.argpos env.argi
        match storeIntValue spec.flags sign i_acc with
        | none =>
          ScanStep.stop { env with c, s, nread, argi } errno
        | some v =>
          ScanStep.next { env with
                          c, s, nread, argi,
                          writes := env.writes ++ [(outIdx, [v])],
                          args_filled := env.args_filled + 1 } errno
      else ScanStep.next { env with c, s, nread } errno
  else if tt = FSF_TEXT_FLOAT_LOWER ∨ tt = FSF_TEXT_FLOAT_UPPER ∨
      tt = FSF_TEXT_FLOAT_SCI_LOWER ∨ tt = FSF_TEXT_FLOAT_SCI_UPPER ∨
      tt = FSF_TEXT_FLOAT_FLEX_LOWER ∨ tt = FSF_TEXT_FLOAT_FLEX_UPPER then
    -- stdio.c lines 742-768: the parser is a FIXME stub; it only skips
    -- whitespace and counts the argument as filled
    let (c, s, nread) := skipSpacesIn env.c env.s env.nread
    ScanStep.next { env with
                    c, s, nread,
                    args_filled := env.args_filled + 1 } errno
  else if tt = FSF_TEXT_CHAR then
    -- stdio.c lines 769-807; no whitespace skip, width defaults to 1
    let width_counter :=
      if spec.flags &&& FSF_HAS_WIDTH = 0 then 1 else width_counter
    let ai : Nat × Nat :=
      if store_arg then outIndex spec.argpos env.argi else (env.argi, env.argi)
    let outIdx := ai.1
    let argi := ai.2
    match scanCharLoop spec.flags store_arg width_counter env.c env.s env.nread [] with
    | none => ScanStep.stop { env with argi } errno
    | some (c, s, nread, vals) =>
      if store_arg then
        ScanStep.next { env with
                        c, s, nread, argi,
                        writes := env.writes ++ [(outIdx, vals)],
                        args_filled := env.args_filled + 1 } errno
      else ScanStep.next { env with c, s, nread, argi } errno
  else if tt = FSF_TEXT_STRING then
    -- stdio.c lines 808-848
    let (c, s, nread) := skipSpacesIn env.c env.s env.nread
    let ai : Nat × Nat :=
      if store_arg then outIndex spec.argpos env.argi else (env.argi, env.argi)
    let outIdx := ai.1
    let argi := ai.2
    match scanStrLoop spec.flags store_arg width_counter c s nread [] with
    | none => ScanStep.stop { env with c, s, nread, argi } errno
    | some (c, s, nread, vals) =>
      if store_arg then
        -- *(char*)out = '\0'; ++args_filled
        ScanStep.next { env with
                        c, s, nread, argi,
                        writes := env.writes ++ [(outIdx, vals ++ [0])],
                        args_filled := env.args_filled + 1 } errno
      else ScanStep.next { env with c, s, nread, argi } errno
  else if tt = FSF_TEXT_SCANSET then
    -- stdio.c lines 849-897; no whitespace skip
    let ai : Nat × Nat :=
      if store_arg then outIndex spec.argpos env.argi else (env.argi, env.argi)
    let outIdx := ai.1
    let argi := ai.2
    let negated := spec.flags &&& FSF_SCANSET_NEGATED ≠ 0
    match scanSetLoop spec.flags store_arg negated spec.scanner
        width_counter env.c env.s env.nread [] with
    | none => ScanStep.stop { env with argi } errno
    | some (c, s, nread, vals) =>
      if store_arg then
        -- scanset_break: *(char*)out = '\0'; ++args_filled
        ScanStep.next { env with
                        c, s, nread, argi,
                        writes := env.writes ++ [(outIdx, vals ++ [0])],
                        args_filled := env.args_filled + 1 } errno
      else ScanStep.next { env with c, s, nread, argi } errno
  else if tt = FSF_TEXT_COUNT then
    -- stdio.c lines 898-940
    if store_arg then
      let (outIdx, argi) := outIndex spec.argpos env.argi
      match storeCountValue spec.flags env.nread with
      | none => ScanStep.stop { env with argi } errno
      | some v =>
        ScanStep.next { env with
                        argi,
                        writes := env.writes ++ [(outIdx, [v])],
                        args_filled := env.args_filled + 1 } errno
    else ScanStep.next env errno
  else if tt = FSF_TEXT_PERCENT then
    -- stdio.c lines 941-950; note that a matched '%' is not consumed
    let (c, s, nread) := skipSpacesIn env.c env.s env.nread
    if width_counter ≠ 0 ∧ c = 37 then
      ScanStep.next { env with c, s, nread } errno
    else
      let (c, s, nread) := fetch s nread
      ScanStep.stop { env with c, s, nread } errno
  else
    -- no such case in the switch: fall out, nothing happens
    ScanStep.next env errno

/-- The main loop of `vsscanf` (stdio.c lines 567-952):
`while (c && *format)`.  The format cursor advances on every iteration,
so `format.length + 1` fuel suffices.  Returns (result, writes,
errno). -/
def vsscanfLoop :
    Nat → List Nat → ScanEnv → Int → Int × List (Nat × List Int) × Int
  | 0, _, env, errno => (env.args_filled, env.writes, errno)
  | fuel + 1, format, env, errno =>
    if env.c = 0 ∨ format = [] then (env.args_filled, env.writes, errno)
    else
      let (fc, format) := snext format
      if isspace fc then
        let (c, s, nread) := skipSpacesIn env.c env.s env.nread
        vsscanfLoop fuel format { env with c, s, nread } errno
      else if fc ≠ 37 then
        if env.c ≠ fc then (env.args_filled, env.writes, errno)
        else
          let (c, s, nread) := fetch env.s env.nread
          vsscanfLoop fuel format { env with c, s, nread } errno
      else
        -- a conversion directive
        let sa : Bool × List Nat :=
          if peek format = 42 then (false, format.tail) else (true, format)
        let store_arg := sa.1
        let format := sa.2
        let (r, spec, format, errno) := parse_format_spec format zeroSpec errno
        if r ≠ 0 then (EOF, env.writes, EINVAL)
        else if spec.flags &&& FSF_HAS_WIDTH ≠ 0 ∧
            spec.flags &&& FSF_WIDTH_FROM_ARG ≠ 0 then
          (EOF, env.writes, EINVAL)
        else
          let width_counter :=
            if spec.flags &&& FSF_HAS_WIDTH ≠ 0 then spec.width else SIZE_MAX
          match scanConvert spec store_arg width_counter env errno with
          | ScanStep.next env errno => vsscanfLoop fuel format env errno
          | ScanStep.stop env errno => (env.args_filled, env.writes, errno)
          | ScanStep.fail errno => (EOF, env.writes, errno)

/-- `vsscanf` (stdio.c lines 555-958).  Returns (assigned-argument
count or EOF, the writes performed through the pointer arguments,
errno). -/
def vsscanf (s format : List Nat) (errno : Int) :
    Int × List (Nat × List Int) × Int :=
  let (c, s, nread) := fetch s 0
  vsscanfLoop (format.length + 1) format
    { c, s, nread, argi := 0, writes := [], args_filled := 0 } errno

/-! ### Example stream states used by the concrete theorems -/

/-- An open, fully-buffered, read-write stream with no width commitment,
no pushback and no bytes left to read. -/
def freshStream : Stream :=
  { is_open := true, char_width := CharWidth.unset, buffer_mode := IOFBF,
    io_mode := IO_READ ||| IO_WRITE, eof := false, error := false,
    position_offset := 0, length := 0, buffer := List.replicate 8 0,
    buffer_size := 8, buffer_index := 0, pushback := [0, 0, 0, 0],
    pushback_index := 0, data := [] }

/-- A stream committed to wide characters. -/
def wideStream : Stream := { freshStream with char_width := CharWidth.wide }

/-- A stream whose end-of-file flag is set. -/
def eofStream : Stream := { freshStream with eof := true }

/-- A stream whose known length is `LONG_MAX`, so that
`fseek(stream, 1, SEEK_END)` overflows the offset type. -/
def maxLenStream : Stream := { freshStream with length := LONG_MAX }

/-- A stream with a nonempty pushback and the end-of-file flag set, for
observing the resets a successful seek performs. -/
def endStream : Stream :=
  { freshStream with
    length := 10,
    eof := true,
    pushback := [65, 66, 0, 0],
    pushback_index := 2 }

-- The conversion characters of each precision class (stdio.c lines
-- 1648-1737): d i o u x X p; f F e E g G a A; s S.
def intConvChars : List Nat := [100, 105, 111, 117, 120, 88, 112]
def floatConvChars : List Nat := [102, 70, 101, 69, 103, 71, 97, 65]
def strConvChars : List Nat := [115, 83]

/-! ### Helper lemmas -/

/-- The write loop never touches the stream's width commitment. -/
theorem fwriteLoop_char_width (buf : List Nat) (size : Nat) :
    ∀ fuel br oi st, ((fwriteLoop buf size fuel br oi st).2).char_width
      = st.char_width := by
  intro fuel
  induction fuel with
  | zero => intro br oi st; simp [fwriteLoop]
  | succ n ih =>
    intro br oi st
    cases br with
    | zero => simp [fwriteLoop]
    | succ m =>
      simp only [fwriteLoop]
      split_ifs <;> simp [ih, _PHOENIX_fflush_unlocked]

/-- A read on a stream not committed to wide characters leaves it
committed to narrow characters (`stream->char_width = CW_NARROW`,
stdio.c line 1236). -/
theorem fread_unlocked_commits (buf : List Nat) (sz ct : Nat) (st : Stream)
    (e : Int) (h : st.char_width ≠ CharWidth.wide) :
    ((_PHOENIX_fread_unlocked buf sz ct st e).2.2.1).char_width
      = CharWidth.narrow := by
  simp only [_PHOENIX_fread_unlocked]
  split_ifs <;> simp_all [kread]

/-- A read never changes the stream's width once it is narrow. -/
theorem fread_unlocked_narrow (buf : List Nat) (sz ct : Nat) (st : Stream)
    (e : Int) (h : st.char_width = CharWidth.narrow) :
    ((_PHOENIX_fread_unlocked buf sz ct st e).2.2.1).char_width
      = CharWidth.narrow :=
  fread_unlocked_commits buf sz ct st e (by simp [h])

/-- `getc_unlocked` keeps a narrow stream narrow. -/
theorem getc_unlocked_narrow (st : Stream) (e : Int)
    (h : st.char_width = CharWidth.narrow) :
    ((getc_unlocked st e).2.1).char_width = CharWidth.narrow := by
  have hmain := fread_unlocked_narrow [0] 1 1 st e h
  unfold getc_unlocked
  rcases hx : _PHOENIX_fread_unlocked [0] 1 1 st e with ⟨n, buf2, st2, e2⟩
  rw [hx] at hmain
  dsimp only at hmain ⊢
  split_ifs <;> simpa using hmain

/-- The `getdelim` read loop keeps a narrow stream narrow. -/
theorem getdelimLoop_narrow (d : Int) :
    ∀ fuel br sz line st e, st.char_width = CharWidth.narrow →
      ((getdelimLoop d fuel br sz line st e).2.2.2.2.1).char_width
        = CharWidth.narrow := by
  intro fuel
  induction fuel with
  | zero => intro br sz line st e h; simpa [getdelimLoop] using h
  | succ n ih =>
    intro br sz line st e h
    have hg := getc_unlocked_narrow st e h
    simp only [getdelimLoop]
    rcases hx : getc_unlocked st e with ⟨c, st2, e2⟩
    rw [hx] at hg
    dsimp only at hg ⊢
    split_ifs <;> simp_all [ih _ _ _ st2 _ hg]

/-- The read path never writes the `eof` flag (stdio.c lines
1229-1256: `eof` is tested but never assigned). -/
theorem fread_unlocked_eof (buf : List Nat) (sz ct : Nat) (st : Stream)
    (e : Int) :
    ((_PHOENIX_fread_unlocked buf sz ct st e).2.2.1).eof = st.eof := by
  simp only [_PHOENIX_fread_unlocked]
  split_ifs <;> simp [kread]

/-- The buffering loop of `fputs` never touches the width commitment. -/
theorem fputsLoop_char_width :
    ∀ str st, ((fputsLoop str st).2).char_width = st.char_width := by
  intro str
  induction str with
  | nil => intro st; simp [fputsLoop]
  | cons c rest ih =>
    intro st
    simp only [fputsLoop]
    split_ifs with h1
    · cases rest with
      | nil => simp
      | cons d tl => simpa using ih _
    · simp [_PHOENIX_fflush_unlocked]

/-! ### Claim theorems -/

/-- C1: the claim says a `fread` after k successful `ungetc` pushes
returns the pushed-back characters in last-in-first-out order (the last
push first).  The code refutes this: `_PHOENIX_fread_unlocked` copies
the pushback bytes from the start of the pushback array
(`memcpy(buffer, stream->pushback_buffer.c, pushback_bytes)`), so after
`ungetc('a')` then `ungetc('b')` a 2-byte read yields "ab" — first-in
first-out —, not "ba" as the claim (and the POSIX page the source cites)
requires.  The capacity half of the claim does hold: with the 4-byte
(`sizeof(wint_t)`) pushback full, a further `ungetc` returns `EOF` and
leaves the pushback contents, the pushback index, and `errno`
unchanged. -/
theorem C1_pushback_order_and_capacity :
    ((ungetc 97 freshStream 0).1 = 97) ∧
    (let st1 := (ungetc 97 freshStream 0).2.1
     let st2 := (ungetc 98 st1 0).2.1
     (ungetc 98 st1 0).1 = 98 ∧
     (fread [0, 0] 1 2 st2 0).1 = 2 ∧
     (fread [0, 0] 1 2 st2 0).2.1 = [97, 98]) ∧
    [97, 98] ≠ [98, 97] ∧
    (let st4 := (ungetc 100 ((ungetc 99 ((ungetc 98
        ((ungetc 97 freshStream 0).2.1) 0).2.1) 0).2.1) 0).2.1
     st4.pushback_index = 4 ∧
     (ungetc 101 st4 0).1 = EOF ∧
     (ungetc 101 st4 0).2.1 = st4 ∧
     (ungetc 101 st4 0).2.2 = 0) := by decide

/-- C2: the claim says a malformed directive leaves the format cursor
at its original position.  The code refutes this: the restore
`format = orig_format` in `parse_format_spec` assigns to the local
parameter through a pointer-to-pointer saved as `orig_format = format`,
so the caller's cursor keeps the advanced position.  At the cursor
"q" (no recognized conversion character) the failing parse consumes the
byte; at "[ab" (a scanset never closed by `]`) it consumes everything
to the end of the string.  The function's own comment (stdio.c lines
1531-1533) promises `format` is unchanged on a nonzero return. -/
theorem C2_parse_failure_moves_cursor :
    ((parse_format_spec [113] zeroSpec 0).1 ≠ 0 ∧
      (parse_format_spec [113] zeroSpec 0).2.2.1 = [] ∧
      ([] : List Nat) ≠ [113]) ∧
    ((parse_format_spec [91, 97, 98] zeroSpec 0).1 ≠ 0 ∧
      (parse_format_spec [91, 97, 98] zeroSpec 0).2.2.1 = [] ∧
      ([] : List Nat) ≠ [91, 97, 98]) := by decide

/-- C3: the claim says `sprintf(buf, "%5d", 42)` produces "   42" and
returns 5.  The code refutes this twice over: the integer renderer in
`PRINTF_BODY_GENERIC` is a TODO stub that emits nothing, and the
directive "%5d" does not even parse — the leading digit enters the
argument-position phase, whose `strtol` call returns 13 for "5d"
(the letter-clobber quirk of `parse_ull`), which exceeds NL_ARGMAX, so
`parse_format_spec` fails and `vsprintf` prints the `%` verbatim and
resumes at the letter.  The result is the string "%d" and the return
value 2, not "   42" and 5.  (The format bytes are "%5d" = [37, 53,
100]; "   42" would be [32, 32, 32, 52, 50].) -/
theorem C3_sprintf_width_directive_unimplemented :
    vsprintf [37, 53, 100] 0 = (2, [37, 100], 0) ∧
    ¬((vsprintf [37, 53, 100] 0).1 = 5 ∧
      (vsprintf [37, 53, 100] 0).2.1 = [32, 32, 32, 52, 50]) := by decide

/-- C4: `sscanf("  -0x1A", "%i", &n)` stores -26 and returns 1.  The
`%i` conversion skips the two blanks, consumes the `-` sign, sniffs the
leading `0` (radix 8) and the following `x` (radix 16), accumulates
0x1A = 26, multiplies by the sign, and stores -26 through the first
pointer argument; one argument is assigned.  (Input bytes
"  -0x1A" = [32, 32, 45, 48, 120, 49, 65], format "%i" = [37, 105].) -/
theorem C4_sscanf_radix_sniffing :
    vsscanf [32, 32, 45, 48, 120, 49, 65] [37, 105] 0
      = (1, [(0, [-26])], 0) := by decide

/-- C8: the claim says an overflowing `fseek(stream, offset, SEEK_END)`
returns -1 with errno = EOVERFLOW and position unchanged, and a
non-overflowing seek computes the new offset and resets pushback and
EOF.  The code refutes the errno and success parts: `FSEEK_GENERIC`
first calls `_PHOENIX_fflush_unlocked`, which is a TODO stub that
always fails, so every `fseek` returns -1 with `errno` untouched and
never reaches the whence switch — the overflowing seek below leaves
errno = 0, and the non-overflowing seek also fails.  The dead
post-flush core (`fseekCore`, stdio.c lines 1380-1413) does implement
exactly the claimed behaviour: the overflow check rejects
`length + offset > LONG_MAX` with EOVERFLOW and an unchanged stream,
and a successful SEEK_END seek sets the offset to `length + offset`,
resets the pushback (`wc = WEOF`, index 0) and clears EOF. -/
theorem C8_fseek_poisoned_by_flush_stub :
    (_PHOENIX_fseek_unlocked maxLenStream 1 SEEK_END 0
        = (-1, { maxLenStream with error := true }, 0) ∧
      (0 : Int) ≠ EOVERFLOW) ∧
    (_PHOENIX_fseek_unlocked freshStream 0 SEEK_SET 0).1 = -1 ∧
    fseekCore maxLenStream 1 SEEK_END 0 = (-1, maxLenStream, EOVERFLOW) ∧
    fseekCore endStream 3 SEEK_END 0
      = (0, { endStream with
              position_offset := 13,
              pushback := [255, 255, 255, 255],
              pushback_index := 0,
              eof := false }, 0) := by decide

/-- Reading one element from a stream with no pushback and no data
returns zero elements. -/
theorem fread_unlocked_empty (buf : List Nat) (st : Stream) (e : Int)
    (hpb : st.pushback_index = 0) (hdata : st.data = []) :
    (_PHOENIX_fread_unlocked buf 1 1 st e).1 = 0 := by
  simp only [_PHOENIX_fread_unlocked]
  split_ifs <;> simp [hpb, hdata, kread, overwrite]

/-- `getc_unlocked` on a stream with no pushback and no data returns
`EOF`. -/
theorem getc_unlocked_empty (st : Stream) (e : Int)
    (hpb : st.pushback_index = 0) (hdata : st.data = []) :
    (getc_unlocked st e).1 = EOF := by
  have h0 := fread_unlocked_empty [0] st e hpb hdata
  unfold getc_unlocked
  rcases hx : _PHOENIX_fread_unlocked [0] 1 1 st e with ⟨n, b2, st2, e2⟩
  rw [hx] at h0
  dsimp only at h0 ⊢
  simp [h0]

/-- The `fgets` read loop on an exhausted stream reports the NULL
return with the buffer untouched. -/
theorem fgetsLoop_empty (k : Nat) (str : List Int) (st : Stream) (e : Int)
    (heof : st.eof = false) (hpb : st.pushback_index = 0)
    (hdata : st.data = []) :
    fgetsLoop (k + 1) 0 str st e
      = (true, str, 0, (getc_unlocked st e).2.1, (getc_unlocked st e).2.2) := by
  have hg := getc_unlocked_empty st e hpb hdata
  simp only [fgetsLoop, heof]
  rcases hx : getc_unlocked st e with ⟨c, st2, e2⟩
  rw [hx] at hg
  dsimp only at hg ⊢
  simp [heof, hg]

/-- `parse_scanset` never changes the precision field. -/
theorem parse_scanset_precision (f : List Nat) (s : FormatSpec) :
    ((parse_scanset f s).2.1).precision = s.precision := by
  simp only [parse_scanset]
  split_ifs <;>
    (rcases h2 : scanset_close _ with _ | r <;> simp [h2])

/-- C10: a scanset whose bracket expression begins with `]` right after
the `[` (or after a leading `^`) treats that `]` as a member, not as
the terminator.  `parse_scanset` succeeds whenever a later `]` exists,
records the scanner as starting at the leading `]`, and leaves the
cursor just past that later `]`; and the membership loop used by the
`vsscanf` scanset conversion (`scansetDecision`, the do-while of
stdio.c lines 863-871) compares an input `]` against the set and
matches it — storing it for a plain set, stopping for a negated one.
The final conjunct runs the whole path: `sscanf("]", "%[]a]", buf)`
stores "]" and returns 1. -/
theorem C10_scanset_leading_rbracket (spec : FormatSpec) (rest r2 : List Nat)
    (h : scanset_close rest = some r2) :
    parse_scanset (93 :: rest) spec
      = (0, { spec with scanner := 93 :: rest }, r2) ∧
    parse_scanset (94 :: 93 :: rest) spec
      = (0, { spec with
              flags := spec.flags ||| FSF_SCANSET_NEGATED,
              scanner := 93 :: rest }, r2) ∧
    (∀ negated, scansetDecision negated 93 (93 :: rest)
      = if negated then ScanAct.brk else ScanAct.store) ∧
    vsscanf [93] [37, 91, 93, 97, 93] 0 = (1, [(0, [93, 0])], 0) := by
  refine ⟨?_, ?_, ?_, by decide⟩
  · simp [parse_scanset, peek, h]
  · simp [parse_scanset, peek, h]
  · intro negated; cases negated <;> simp [scansetDecision]

/-- Witness for C10 at the concrete scanset body "]a]". -/
theorem C10_scanset_leading_rbracket_witness :
    scanset_close [97, 93] = some [] ∧
    parse_scanset [93, 97, 93] zeroSpec
      = (0, { zeroSpec with scanner := [93, 97, 93] }, []) ∧
    scansetDecision true 93 [93, 97, 93] = ScanAct.brk ∧
    scansetDecision false 93 [93, 97, 93] = ScanAct.store := by
  have h := C10_scanset_leading_rbracket zeroSpec [97, 93] [] (by decide)
  refine ⟨by decide, h.1, ?_, ?_⟩
  · have := h.2.2.1 true
    simpa using this
  · have := h.2.2.1 false
    simpa using this

/-- C6: the error/EOF flag algebra.  `clearerr` resets both flags for
every prior state; the read path never writes the `eof` flag at all (in
particular a failed read never clears a previously-set EOF), and every
read that fails for an error cause (wide-width stream, closed stream,
or a stream not open for reading) sets the error flag; and every
success return of the seek logic (`fseekCore` — the part of
`FSEEK_GENERIC` after the flush call, which is the only place a 0
return can arise; the flush stub currently prevents `fseek` itself from
ever succeeding, see C8) leaves the EOF flag clear. -/
theorem C6_flag_state_machine :
    (∀ st, (clearerr st).eof = false ∧ (clearerr st).error = false) ∧
    (∀ buf sz ct st e,
      ((_PHOENIX_fread_unlocked buf sz ct st e).2.2.1).eof = st.eof) ∧
    (∀ buf sz ct st e, 0 < sz → 0 < ct →
      st.char_width = CharWidth.wide ∨ st.is_open = false ∨
        st.io_mode &&& IO_READ = 0 →
      ((_PHOENIX_fread_unlocked buf sz ct st e).2.2.1).error = true) ∧
    (∀ st off w e, (fseekCore st off w e).1 = 0 →
      ((fseekCore st off w e).2.1).eof = false) := by
  refine ⟨fun st => ⟨rfl, rfl⟩,
          fun buf sz ct st e => fread_unlocked_eof buf sz ct st e, ?_, ?_⟩
  · intro buf sz ct st e hsz hct hf
    simp only [_PHOENIX_fread_unlocked]
    split_ifs with h1 h2 h3 h4
    · simp
    · exact absurd h2 (by omega)
    · simp
    all_goals
      rcases hf with hA | hBC
      · exact absurd hA h1
      · exact absurd hBC h3
  · intro st off w e
    simp only [fseekCore]
    split_ifs <;> simp

/-- Witness for C6 at concrete streams. -/
theorem C6_flag_state_machine_witness :
    (clearerr eofStream).eof = false ∧
    ((_PHOENIX_fread_unlocked [0] 1 1 eofStream 0).2.2.1).eof = eofStream.eof ∧
    ((_PHOENIX_fread_unlocked [0] 1 1 wideStream 0).2.2.1).error = true ∧
    ((fseekCore freshStream 0 SEEK_SET 0).2.1).eof = false :=
  ⟨(C6_flag_state_machine.1 eofStream).1,
   C6_flag_state_machine.2.1 [0] 1 1 eofStream 0,
   C6_flag_state_machine.2.2.1 [0] 1 1 wideStream 0 (by decide) (by decide)
     (by decide),
   C6_flag_state_machine.2.2.2 freshStream 0 SEEK_SET 0 (by decide)⟩

/-- C7: when `fgets` encounters end-of-file before any byte has been
read — the stream's EOF flag is already set, or (with room to attempt a
read, `num > 1`) the stream has no pushback and no data so the first
`getc_unlocked` reports EOF — it returns NULL and writes nothing into
the destination buffer, not even a terminator.  (With `num = 1` and the
EOF flag clear the loop body never runs, no read is attempted and no
end-of-file is encountered; `fgets` then stores just the terminator.) -/
theorem C7_fgets_eof_leaves_buffer_untouched
    (str : List Int) (num : Int) (st : Stream) (e : Int)
    (hnum : 0 < num)
    (h : st.eof = true ∨ (1 < num ∧ st.pushback_index = 0 ∧ st.data = [])) :
    (fgets str num st e).1 = none ∧ (fgets str num st e).2.1 = str := by
  have hne : num ≠ 0 := by omega
  rcases h with heof | ⟨hn2, hpb, hdata⟩
  · simp [fgets, hne, heof]
  · cases heofv : st.eof with
    | true => simp [fgets, hne, heofv]
    | false =>
      obtain ⟨k, hk⟩ : ∃ k, (num - 1).toNat = k + 1 :=
        ⟨(num - 1).toNat - 1, by omega⟩
      simp [fgets, hne, heofv, hk,
        fgetsLoop_empty k str st e heofv hpb hdata]

/-- Witness for C7: both hypothesis forms at concrete streams. -/
theorem C7_fgets_eof_leaves_buffer_untouched_witness :
    ((fgets [7, 7] 2 eofStream 0).1 = none ∧
      (fgets [7, 7] 2 eofStream 0).2.1 = [7, 7]) ∧
    ((fgets [7, 7] 2 freshStream 0).1 = none ∧
      (fgets [7, 7] 2 freshStream 0).2.1 = [7, 7]) :=
  ⟨C7_fgets_eof_leaves_buffer_untouched [7, 7] 2 eofStream 0 (by decide)
     (Or.inl (by decide)),
   C7_fgets_eof_leaves_buffer_untouched [7, 7] 2 freshStream 0 (by decide)
     (Or.inr (by decide))⟩

/-- C9: the conversion-specifier phase of `parse_format_spec`
(`parse_conversion`, the final switch of stdio.c lines 1646-1738)
applies a default precision only when no explicit precision was parsed
(the `FSF_HAS_PRECISION` flag is clear), and the default depends on the
conversion character: 1 for the integer conversions d, i, o, u, x, X
and for p; 6 for the floating-point conversions f, F, e, E, g, G, a, A;
and SIZE_MAX (unbounded) for the string conversions s, S.  When an
explicit precision was parsed (`FSF_HAS_PRECISION` set), every
successful parse leaves `precision` exactly as parsed — no default ever
overwrites it, for any conversion character including the scanset. -/
theorem C9_default_precision_per_kind (spec : FormatSpec) (fmt : List Nat)
    (hok : (parse_conversion fmt spec).1 = 0) :
    (spec.flags &&& FSF_HAS_PRECISION ≠ 0 →
      (parse_conversion fmt spec).2.1.precision = spec.precision) ∧
    (spec.flags &&& FSF_HAS_PRECISION = 0 →
      (peek fmt ∈ intConvChars →
        (parse_conversion fmt spec).2.1.precision = 1) ∧
      (peek fmt ∈ floatConvChars →
        (parse_conversion fmt spec).2.1.precision = 6) ∧
      (peek fmt ∈ strConvChars →
        (parse_conversion fmt spec).2.1.precision = SIZE_MAX)) := by
  cases fmt with
  | nil => simp [parse_conversion, snext] at hok
  | cons c rest =>
    clear hok
    by_cases hd : c = 100
    · subst hd
      exact ⟨fun hpre => by simp [parse_conversion, snext, hpre],
        fun hp0 => ⟨fun hmem => by simp [parse_conversion, snext, hp0], fun hm => absurd hm (by simp [peek, intConvChars, floatConvChars, strConvChars]), fun hm => absurd hm (by simp [peek, intConvChars, floatConvChars, strConvChars])⟩⟩
    by_cases hi : c = 105
    · subst hi
      exact ⟨fun hpre => by simp [parse_conversion, snext, hpre],
        fun hp0 => ⟨fun hmem => by simp [parse_conversion, snext, hp0], fun hm => absurd hm (by simp [peek, intConvChars, floatConvChars, strConvChars]), fun hm => absurd hm (by simp [peek, intConvChars, floatConvChars, strConvChars])⟩⟩
    by_cases ho : c = 111
    · subst ho
      exact ⟨fun hpre => by simp [parse_conversion, snext, hpre],
        fun hp0 => ⟨fun hmem => by simp [parse_conversion, snext, hp0], fun hm => absurd hm (by simp [peek, intConvChars, floatConvChars, strConvChars]), fun hm => absurd hm (by simp [peek, intConvChars, floatConvChars, strConvChars])⟩⟩
    by_cases hu : c = 117
    · subst hu
      exact ⟨fun hpre => by simp [parse_conversion, snext, hpre],
        fun hp0 => ⟨fun hmem => by simp [parse_conversion, snext, hp0], fun hm => absurd hm (by simp [peek, intConvChars, floatConvChars, strConvChars]), fun hm => absurd hm (by simp [peek, intConvChars, floatConvChars, strConvChars])⟩⟩
    by_cases hx : c = 120
    · subst hx
      exact ⟨fun hpre => by simp [parse_conversion, snext, hpre],
        fun hp0 => ⟨fun hmem => by simp [parse_conversion, snext, hp0], fun hm => absurd hm (by simp [peek, intConvChars, floatConvChars, strConvChars]), fun hm => absurd hm (by simp [peek, intConvChars, floatConvChars, strConvChars])⟩⟩
    by_cases hXX : c = 88
    · subst hXX
      exact ⟨fun hpre => by simp [parse_conversion, snext, hpre],
        fun hp0 => ⟨fun hmem => by simp [parse_conversion, snext, hp0], fun hm => absurd hm (by simp [peek, intConvChars, floatConvChars, strConvChars]), fun hm => absurd hm (by simp [peek, intConvChars, floatConvChars, strConvChars])⟩⟩
    by_cases hf : c = 102
    · subst hf
      exact ⟨fun hpre => by simp [parse_conversion, snext, hpre],
        fun hp0 => ⟨fun hm => absurd hm (by simp [peek, intConvChars, floatConvChars, strConvChars]), fun hmem => by simp [parse_conversion, snext, hp0], fun hm => absurd hm (by simp [peek, intConvChars, floatConvChars, strConvChars])⟩⟩
    by_cases hF : c = 70
    · subst hF
      exact ⟨fun hpre => by simp [parse_conversion, snext, hpre],
        fun hp0 => ⟨fun hm => absurd hm (by simp [peek, intConvChars, floatConvChars, strConvChars]), fun hmem => by simp [parse_conversion, snext, hp0], fun hm => absurd hm (by simp [peek, intConvChars, floatConvChars, strConvChars])⟩⟩
    by_cases he : c = 101
    · subst he
      exact ⟨fun hpre => by simp [parse_conversion, snext, hpre],
        fun hp0 => ⟨fun hm => absurd hm (by simp [peek, intConvChars, floatConvChars, strConvChars]), fun hmem => by simp [parse_conversion, snext, hp0], fun hm => absurd hm (by simp [peek, intConvChars, floatConvChars, strConvChars])⟩⟩
    by_cases hE : c = 69
    · subst hE
      exact ⟨fun hpre => by simp [parse_conversion, snext, hpre],
        fun hp0 => ⟨fun hm => absurd hm (by simp [peek, intConvChars, floatConvChars, strConvChars]), fun hmem => by simp [parse_conversion, snext, hp0], fun hm => absurd hm (by simp [peek, intConvChars, floatConvChars, strConvChars])⟩⟩
    by_cases hg : c = 103
    · subst hg
      exact ⟨fun hpre => by simp [parse_conversion, snext, hpre],
        fun hp0 => ⟨fun hm => absurd hm (by simp [peek, intConvChars, floatConvChars, strConvChars]), fun hmem => by simp [parse_conversion, snext, hp0], fun hm => absurd hm (by simp [peek, intConvChars, floatConvChars, strConvChars])⟩⟩
    by_cases hG : c = 71
    · subst hG
      exact ⟨fun hpre => by simp [parse_conversion, snext, hpre],
        fun hp0 => ⟨fun hm => absurd hm (by simp [peek, intConvChars, floatConvChars, strConvChars]), fun hmem => by simp [parse_conversion, snext, hp0], fun hm => absurd hm (by simp [peek, intConvChars, floatConvChars, strConvChars])⟩⟩
    by_cases ha : c = 97
    · subst ha
      exact ⟨fun hpre => by simp [parse_conversion, snext, hpre],
        fun hp0 => ⟨fun hm => absurd hm (by simp [peek, intConvChars, floatConvChars, strConvChars]), fun hmem => by simp [parse_conversion, snext, hp0], fun hm => absurd hm (by simp [peek, intConvChars, floatConvChars, strConvChars])⟩⟩
    by_cases hA : c = 65
    · subst hA
      exact ⟨fun hpre => by simp [parse_conversion, snext, hpre],
        fun hp0 => ⟨fun hm => absurd hm (by simp [peek, intConvChars, floatConvChars, strConvChars]), fun hmem => by simp [parse_conversion, snext, hp0], fun hm => absurd hm (by simp [peek, intConvChars, floatConvChars, strConvChars])⟩⟩
    by_cases hc : c = 99
    · subst hc
      exact ⟨fun hpre => by simp [parse_conversion, snext, hpre],
        fun hp0 => ⟨fun hm => absurd hm (by simp [peek, intConvChars, floatConvChars, strConvChars]), fun hm => absurd hm (by simp [peek, intConvChars, floatConvChars, strConvChars]), fun hm => absurd hm (by simp [peek, intConvChars, floatConvChars, strConvChars])⟩⟩
    by_cases hC : c = 67
    · subst hC
      exact ⟨fun hpre => by
          simp only [parse_conversion, snext]
          split_ifs <;> simp_all,
        fun hp0 => ⟨fun hm => absurd hm (by simp [peek, intConvChars, floatConvChars, strConvChars]), fun hm => absurd hm (by simp [peek, intConvChars, floatConvChars, strConvChars]), fun hm => absurd hm (by simp [peek, intConvChars, floatConvChars, strConvChars])⟩⟩
    by_cases hs : c = 115
    · subst hs
      exact ⟨fun hpre => by simp [parse_conversion, snext, hpre],
        fun hp0 => ⟨fun hm => absurd hm (by simp [peek, intConvChars, floatConvChars, strConvChars]), fun hm => absurd hm (by simp [peek, intConvChars, floatConvChars, strConvChars]), fun hmem => by simp [parse_conversion, snext, hp0]⟩⟩
    by_cases hS : c = 83
    · subst hS
      exact ⟨fun hpre => by
          simp only [parse_conversion, snext]
          split_ifs <;> simp_all,
        fun hp0 => ⟨fun hm => absurd hm (by simp [peek, intConvChars, floatConvChars, strConvChars]), fun hm => absurd hm (by simp [peek, intConvChars, floatConvChars, strConvChars]), fun hmem => by
          simp only [parse_conversion, snext]
          split_ifs <;> simp_all⟩⟩
    by_cases hbr : c = 91
    · subst hbr
      exact ⟨fun hpre => by simp [parse_conversion, snext, hpre, parse_scanset_precision],
        fun hp0 => ⟨fun hm => absurd hm (by simp [peek, intConvChars, floatConvChars, strConvChars]), fun hm => absurd hm (by simp [peek, intConvChars, floatConvChars, strConvChars]), fun hm => absurd hm (by simp [peek, intConvChars, floatConvChars, strConvChars])⟩⟩
    by_cases hp2 : c = 112
    · subst hp2
      exact ⟨fun hpre => by simp [parse_conversion, snext, hpre],
        fun hp0 => ⟨fun hmem => by simp [parse_conversion, snext, hp0], fun hm => absurd hm (by simp [peek, intConvChars, floatConvChars, strConvChars]), fun hm => absurd hm (by simp [peek, intConvChars, floatConvChars, strConvChars])⟩⟩
    by_cases hn : c = 110
    · subst hn
      exact ⟨fun hpre => by simp [parse_conversion, snext, hpre],
        fun hp0 => ⟨fun hm => absurd hm (by simp [peek, intConvChars, floatConvChars, strConvChars]), fun hm => absurd hm (by simp [peek, intConvChars, floatConvChars, strConvChars]), fun hm => absurd hm (by simp [peek, intConvChars, floatConvChars, strConvChars])⟩⟩
    by_cases hpc : c = 37
    · subst hpc
      exact ⟨fun hpre => by simp [parse_conversion, snext, hpre],
        fun hp0 => ⟨fun hm => absurd hm (by simp [peek, intConvChars, floatConvChars, strConvChars]), fun hm => absurd hm (by simp [peek, intConvChars, floatConvChars, strConvChars]), fun hm => absurd hm (by simp [peek, intConvChars, floatConvChars, strConvChars])⟩⟩
    · -- no recognized conversion character: parse fails, spec unchanged
      exact ⟨fun hpre => by simp [parse_conversion, snext, hd, hi, ho, hu, hx, hXX, hf, hF, he, hE, hg, hG, ha, hA, hc, hC, hs, hS, hbr, hp2, hn, hpc],
        fun hp0 =>
          ⟨fun hm => absurd hm (by simp [peek, intConvChars, hd, hi, ho, hu, hx, hXX, hp2]),
           fun hm => absurd hm (by simp [peek, floatConvChars, hf, hF, he, hE, hg, hG, ha, hA]),
           fun hm => absurd hm (by simp [peek, strConvChars, hs, hS])⟩⟩

/-- Witness for C9 at the conversions d, f and s with no explicit
precision, and at d with an explicit precision 3. -/
theorem C9_default_precision_per_kind_witness :
    ((parse_conversion [100] zeroSpec).1 = 0 ∧
      (parse_conversion [100] zeroSpec).2.1.precision = 1) ∧
    ((parse_conversion [102] zeroSpec).1 = 0 ∧
      (parse_conversion [102] zeroSpec).2.1.precision = 6) ∧
    ((parse_conversion [115] zeroSpec).1 = 0 ∧
      (parse_conversion [115] zeroSpec).2.1.precision = SIZE_MAX) ∧
    (let pspec := { zeroSpec with
                    flags := FSF_HAS_PRECISION,
                    precision := 3 }
     (parse_conversion [100] pspec).1 = 0 ∧
      (parse_conversion [100] pspec).2.1.precision = 3) := by
  refine ⟨⟨by decide, ?_⟩, ⟨by decide, ?_⟩, ⟨by decide, ?_⟩, by decide, ?_⟩
  · exact ((C9_default_precision_per_kind zeroSpec [100] (by decide)).2
      (by decide)).1 (by decide)
  · exact ((C9_default_precision_per_kind zeroSpec [102] (by decide)).2
      (by decide)).2.1 (by decide)
  · exact ((C9_default_precision_per_kind zeroSpec [115] (by decide)).2
      (by decide)).2.2 (by decide)
  · exact (C9_default_precision_per_kind
      { zeroSpec with flags := FSF_HAS_PRECISION, precision := 3 }
      [100] (by decide)).1 (by decide)

/-- C5 counterexample: two parts of the claim fail on the code.
`fputs` on a wide-committed stream does set `errno = EINVAL` and the
error flag, but it returns 0 — its `result` variable is still the
initial 0 when `EFAIL` jumps to the shared `done:/fail:` exit — not its
error sentinel `EOF`.  And `fwrite` is missing the narrow commitment
entirely: a complete, successful one-byte `fwrite` on a
width-uncommitted stream leaves `char_width` unset (compare
`_PHOENIX_fread_unlocked`, which assigns `CW_NARROW`), so the first
narrow operation does not always commit the stream. -/
theorem C5_width_discipline_counterexample :
    ((fputs [97] wideStream 0).1 = 0 ∧ (0 : Int) ≠ EOF ∧
      (fputs [97] wideStream 0).2.2 = EINVAL) ∧
    ((_PHOENIX_fwrite_unlocked [97] 1 1 freshStream 0).1 = 1 ∧
      (_PHOENIX_fwrite_unlocked [97] 1 1 freshStream 0).2.1.char_width
        = CharWidth.unset ∧
      CharWidth.unset ≠ CharWidth.narrow) := by decide

/-- C5 amended: on a stream already committed to wide characters,
`fread`, `fwrite`, `ungetc` and `getdelim` fail with their error
sentinels (0, 0, EOF, -1), set `errno = EINVAL` and the stream error
flag, and transfer no data; `fputs` also sets EINVAL and the error flag
and transfers nothing but returns 0 rather than EOF.  The first narrow
character operation among `fread`, `fputs`, `ungetc` and `getdelim`
commits an uncommitted stream to `CW_NARROW`; `fwrite` checks the width
but never commits it — it leaves `char_width` unchanged. -/
theorem C5_width_discipline_amended :
    (∀ buf sz ct st e, st.char_width = CharWidth.wide → 0 < sz → 0 < ct →
      fread buf sz ct st e = (0, buf, { st with error := true }, EINVAL)) ∧
    (∀ buf sz ct st e, st.char_width = CharWidth.wide → 0 < sz →
      _PHOENIX_fwrite_unlocked buf sz ct st e
        = (0, { st with error := true }, EINVAL)) ∧
    (∀ ch st e, ch ≠ EOF → st.char_width = CharWidth.wide →
      ungetc ch st e = (EOF, { st with error := true }, EINVAL)) ∧
    (∀ str st e, st.char_width = CharWidth.wide →
      fputs str st e = (0, { st with error := true }, EINVAL)) ∧
    (∀ lp szp d st e, st.char_width = CharWidth.wide →
      getdelim lp szp d st e
        = (-1, lp, szp, { st with error := true }, EINVAL)) ∧
    (∀ buf sz ct st e, st.char_width ≠ CharWidth.wide →
      ((_PHOENIX_fread_unlocked buf sz ct st e).2.2.1).char_width
        = CharWidth.narrow) ∧
    (∀ ch st e, ch ≠ EOF → st.char_width ≠ CharWidth.wide →
      ((ungetc ch st e).2.1).char_width = CharWidth.narrow) ∧
    (∀ str st e, st.char_width ≠ CharWidth.wide →
      ((fputs str st e).2.1).char_width = CharWidth.narrow) ∧
    (∀ lp szp d st e, st.char_width ≠ CharWidth.wide →
      ((getdelim lp szp d st e).2.2.2.1).char_width = CharWidth.narrow) ∧
    (∀ buf sz ct st e,
      ((_PHOENIX_fwrite_unlocked buf sz ct st e).2.1).char_width
        = st.char_width) := by
  refine ⟨?_, ?_, ?_, ?_, ?_, ?_, ?_, ?_, ?_, ?_⟩
  · intro buf sz ct st e hw hsz hct
    have h1 : ¬(sz = 0 ∨ ct = 0) := by omega
    simp [fread, _PHOENIX_fread_unlocked, h1, hw]
  · intro buf sz ct st e hw hsz
    simp [_PHOENIX_fwrite_unlocked, hw]
  · intro ch st e hch hw
    simp [ungetc, hch, hw]
  · intro str st e hw
    simp [fputs, hw]
  · intro lp szp d st e hw
    simp [getdelim, hw]
  · intro buf sz ct st e hw
    exact fread_unlocked_commits buf sz ct st e hw
  · intro ch st e hch hw
    simp only [ungetc]
    split_ifs <;> simp_all
  · intro str st e hw
    simp only [fputs]
    split_ifs with h1 h2
    · exact absurd h1 hw
    · simp
    · simpa using fputsLoop_char_width str { st with char_width := CharWidth.narrow }
  · intro lp szp d st e hw
    cases lp with
    | none => simp [getdelim, hw]
    | some l0 =>
      cases szp with
      | none => simp [getdelim, hw]
      | some s0 =>
        simp only [getdelim]
        have key : ∀ (fuel br szx : Nat) (line : List Int) (e2 : Int),
            ((getdelimLoop d fuel br szx line
              { st with char_width := CharWidth.narrow } e2).2.2.2.2.1).char_width
              = CharWidth.narrow :=
          fun fuel br szx line e2 =>
            getdelimLoop_narrow d fuel br szx line _ e2 rfl
        split_ifs <;> simp_all [key]
  · intro buf sz ct st e
    simp only [_PHOENIX_fwrite_unlocked]
    split_ifs <;> simp [fwriteLoop_char_width]

/-- Witness for C5 amended, at concrete wide and uncommitted streams. -/
theorem C5_width_discipline_amended_witness :
    fread [0] 1 1 wideStream 0 = (0, [0], { wideStream with error := true }, EINVAL) ∧
    ungetc 65 wideStream 0 = (EOF, { wideStream with error := true }, EINVAL) ∧
    fputs [97] wideStream 0 = (0, { wideStream with error := true }, EINVAL) ∧
    ((_PHOENIX_fread_unlocked [0] 1 1 freshStream 0).2.2.1).char_width
      = CharWidth.narrow ∧
    ((_PHOENIX_fwrite_unlocked [97] 1 1 freshStream 0).2.1).char_width
      = freshStream.char_width :=
  ⟨C5_width_discipline_amended.1 [0] 1 1 wideStream 0 rfl (by decide) (by decide),
   C5_width_discipline_amended.2.2.1 65 wideStream 0 (by decide) rfl,
   C5_width_discipline_amended.2.2.2.1 [97] wideStream 0 rfl,
   C5_width_discipline_amended.2.2.2.2.2.1 [0] 1 1 freshStream 0 (by decide),
   C5_width_discipline_amended.2.2.2.2.2.2.2.2.2 [97] 1 1 freshStream 0⟩
